import Mathlib

/-!
# avalanche-cli: key commands, custom-VM subnet creation and file helpers

A shallow embedding of

* `pkg/vm/createCustom.go`  (`CreateCustomSubnetConfig`, `loadCustomGenesis`),
* `cmd/keycmd/delete.go`    (`deleteKey`),
* `cmd/keycmd/create.go`    (`createKey`),
* `pkg/utils/file.go`       (`FileExists`, `UserHomePath`),
* `tests/e2e/commands/subnet.go` (`DeleteElasticSubnetConfig`,
  `SimulateFujiTransformSubnet`).

Every call that leaves the function (prompt, file system, key store, logger,
VM binary inspection) is answered by a field of `Runtime` or `Avalanche`, and
is recorded, in program order, in the list of `Event`s returned next to the
Go result.  A function that makes no mutating call leaves its surroundings as
they were.  The two test helpers run on a `Machine` (environment and files)
and end in a `Run`: they return, or a `gomega` expectation fails.

The subnet commands themselves (delete, deploy, transaction signing) are not
among the sources; their operations are modelled from the specification and
marked as such.
-/

namespace AvalancheCLI

/-! ## Values -/

/-- A Go byte slice. -/
abbrev Bytes := List UInt8

/-- An error value handed back by a callee outside the embedded functions
(package `os`, the prompt, the key store, ...).  The embedded code never looks
inside such a value except through `os.IsNotExist`. -/
structure ExtError where
  text : String
  notExist : Bool
deriving DecidableEq, Repr

/-- Error values as the embedded functions see them: a callee's error passed
through, an error made by `errors.New`, or one made by `fmt.Errorf` with a
trailing `%w` verb. -/
inductive GoError where
  | ext (e : ExtError)
  | errorsNew (text : String)
  | errorf (pre : String) (inner : GoError)
deriving DecidableEq, Repr

/-- Method `Error()`. -/
def GoError.Error : GoError → String
  | .ext e => e.text
  | .errorsNew t => t
  | .errorf pre inner => pre ++ inner.Error

/-- Function `errors.Unwrap` on the errors the embedded code builds itself. -/
def errorsUnwrap : GoError → Option GoError
  | .errorf _ inner => some inner
  | _ => none

/-- Function `os.IsNotExist`: false on a nil error, false on errors built by
`errors.New` and `fmt.Errorf` (it does not follow `%w`), and the callee's own
classification otherwise. -/
def osIsNotExist : Option GoError → Bool
  | some (.ext e) => e.notExist
  | _ => false

/-- The part of `fs.FileInfo` the sources read. -/
structure FileInfo where
  IsDir : Bool
deriving DecidableEq, Repr

/-- A soft key as produced by `key.NewSoft`; only its identity matters here. -/
structure SoftKey where
  privKeyRaw : Bytes
deriving DecidableEq, Repr

/-- The fields of `models.Sidecar` that `CreateCustomSubnetConfig` sets. -/
structure Sidecar where
  Name : String
  VM : String
  VMVersion : String
  RPCVersion : Int
  Subnet : String
  TokenName : String
deriving DecidableEq, Repr

/-- The composite literal `models.Sidecar{}`. -/
def Sidecar.empty : Sidecar :=
  { Name := "", VM := "", VMVersion := "", RPCVersion := 0, Subnet := "", TokenName := "" }

/-- Modelled from the spec: the constant `models.CustomVM` of `pkg/models`,
the VM type tag of a custom-binary VM. -/
def CustomVM : String := "Custom"

/-! ## Calls that leave the embedded functions -/

/-- One call made to a collaborator, with the arguments it was given. -/
inductive Event where
  | PrintToUser (msg : String)
  | CaptureExistingFilepath (promptStr : String)
  | CaptureNoYes (promptStr : String)
  | ReadFile (name : String)
  | Stat (name : String)
  | Remove (name : String)
  | GetVMBinaryProtocolVersion (vmPath : String)
  | CopyVMBinary (vmPath subnetName : String)
  | KeyExists (keyName : String)
  | NewSoft (networkID : Nat)
  | Save (k : SoftKey) (keyPath : String)
  | printAddresses (keyPaths : List String)
  | CopyKeyFile (inputFilename keyName : String)
deriving DecidableEq, Repr

/-- The interface `prompts.Prompter`, as far as the sources call it. -/
structure Prompter where
  CaptureExistingFilepath : String → Except ExtError String
  CaptureNoYes : String → Except ExtError Bool

/-- The methods of `application.Avalanche` the sources call. -/
structure Avalanche where
  Prompt : Prompter
  GetKeyPath : String → String
  KeyExists : String → Bool
  CopyKeyFile : String → String → Option ExtError
  CopyVMBinary : String → String → Option ExtError

/-- Package-level callees: `os.ReadFile`, `os.Stat`, `os.Remove`,
`os.UserHomeDir`, `vm.GetVMBinaryProtocolVersion`, `key.NewSoft`,
`(*SoftKey).Save` and `keycmd.printAddresses`. -/
structure Runtime where
  ReadFile : String → Option Bytes × Option ExtError
  Stat : String → Except ExtError FileInfo
  Remove : String → Option ExtError
  UserHomeDir : Except ExtError String
  GetVMBinaryProtocolVersion : String → Except ExtError Int
  NewSoft : Nat → Except ExtError SoftKey
  Save : SoftKey → String → Option ExtError
  printAddresses : List String → Option ExtError

/-! ## pkg/vm/createCustom.go -/

/-- Function `loadCustomGenesis`: the pair `([]byte, error)` and the calls made. -/
def loadCustomGenesis (rt : Runtime) (app : Avalanche) (genesisPath : String) :
    (Option Bytes × Option GoError) × List Event :=
  let asked : Except ExtError String × List Event :=
    if genesisPath = "" then
      (app.Prompt.CaptureExistingFilepath "Enter path to custom genesis",
        [Event.CaptureExistingFilepath "Enter path to custom genesis"])
    else
      (Except.ok genesisPath, [])
  match asked.1 with
  | .error err => ((none, some (GoError.ext err)), asked.2)
  | .ok genesisPath =>
    let read := rt.ReadFile genesisPath
    ((read.1, read.2.map GoError.ext), asked.2 ++ [Event.ReadFile genesisPath])

/-- Function `CreateCustomSubnetConfig`: the triple `([]byte, *models.Sidecar, error)`
and the calls made. -/
def CreateCustomSubnetConfig (rt : Runtime) (app : Avalanche)
    (subnetName genesisPath vmPath : String) :
    (Option Bytes × Sidecar × Option GoError) × List Event :=
  let ev0 := [Event.PrintToUser ("creating custom VM subnet " ++ subnetName)]
  let loaded := loadCustomGenesis rt app genesisPath
  match loaded.1.2 with
  | some err => ((none, Sidecar.empty, some err), ev0 ++ loaded.2)
  | none =>
    let genesisBytes := loaded.1.1
    let asked : Except ExtError String × List Event :=
      if vmPath = "" then
        (app.Prompt.CaptureExistingFilepath "Enter path to vm binary",
          [Event.CaptureExistingFilepath "Enter path to vm binary"])
      else
        (Except.ok vmPath, [])
    match asked.1 with
    | .error err => ((none, Sidecar.empty, some (GoError.ext err)), ev0 ++ loaded.2 ++ asked.2)
    | .ok vmPath =>
      let ev := ev0 ++ loaded.2 ++ asked.2 ++ [Event.GetVMBinaryProtocolVersion vmPath]
      match rt.GetVMBinaryProtocolVersion vmPath with
      | .error err =>
        ((none, Sidecar.empty,
          some (GoError.errorf "unable to get RPC version: " (GoError.ext err))), ev)
      | .ok rpcVersion =>
        let sc : Sidecar :=
          { Name := subnetName
            VM := CustomVM
            VMVersion := ""
            RPCVersion := rpcVersion
            Subnet := subnetName
            TokenName := "" }
        ((genesisBytes, sc, (app.CopyVMBinary vmPath subnetName).map GoError.ext),
          ev ++ [Event.CopyVMBinary vmPath subnetName])

/-! ## cmd/keycmd/delete.go -/

/-- Function `deleteKey`, with `keyName = args[0]` (the command is registered
with `cobra.ExactArgs(1)`) and the package variable `forceDelete` as an
argument: the returned error and the calls made. -/
def deleteKey (rt : Runtime) (app : Avalanche) (forceDelete : Bool) (keyName : String) :
    Option GoError × List Event :=
  let keyPath := app.GetKeyPath keyName
  let ev0 := [Event.Stat keyPath]
  match rt.Stat keyPath with
  | .error _ => (some (GoError.errorsNew "key does not exist"), ev0)
  | .ok _ =>
    -- `some r`: the guarded block returned `r`; `none`: control reaches `os.Remove`
    let guarded : Option (Option GoError) × List Event :=
      if !forceDelete then
        let confStr := "Are you sure you want to delete " ++ keyName ++ "?"
        match app.Prompt.CaptureNoYes confStr with
        | .error err => (some (some (GoError.ext err)), [Event.CaptureNoYes confStr])
        | .ok conf =>
          if !conf then
            (some none, [Event.CaptureNoYes confStr, Event.PrintToUser "Delete cancelled"])
          else
            (none, [Event.CaptureNoYes confStr])
      else
        (none, [])
    match guarded.1 with
    | some r => (r, ev0 ++ guarded.2)
    | none =>
      match rt.Remove keyPath with
      | some err => (some (GoError.ext err), ev0 ++ guarded.2 ++ [Event.Remove keyPath])
      | none =>
        (none, ev0 ++ guarded.2 ++ [Event.Remove keyPath, Event.PrintToUser "Key deleted"])

/-! ## cmd/keycmd/create.go -/

/-- Constant `forceFlag`. -/
def forceFlag : String := "force"

/-- Function `createKey`, with `keyName = args[0]` (`cobra.ExactArgs(1)`) and
the package variables `forceCreate` and `filename` as arguments: the returned
error and the calls made. -/
def createKey (rt : Runtime) (app : Avalanche) (forceCreate : Bool) (filename : String)
    (keyName : String) : Option GoError × List Event :=
  let ev0 := [Event.KeyExists keyName]
  if app.KeyExists keyName && !forceCreate then
    (some (GoError.errorsNew ("key already exists. Use --" ++ forceFlag ++ " parameter to overwrite")),
      ev0)
  else if filename = "" then
    -- Create key from scratch
    let ev1 := ev0 ++ [Event.PrintToUser "Generating new key...", Event.NewSoft 0]
    match rt.NewSoft 0 with
    | .error err => (some (GoError.ext err), ev1)
    | .ok k =>
      let keyPath := app.GetKeyPath keyName
      let ev2 := ev1 ++ [Event.Save k keyPath]
      match rt.Save k keyPath with
      | some err => (some (GoError.ext err), ev2)
      | none =>
        let ev3 := ev2 ++ [Event.PrintToUser "Key created", Event.printAddresses [keyPath]]
        match rt.printAddresses [keyPath] with
        | some err => (some (GoError.ext err), ev3)
        | none => (none, ev3)
  else
    -- Load key from file
    let ev1 := ev0 ++ [Event.PrintToUser "Loading user key...", Event.CopyKeyFile filename keyName]
    match app.CopyKeyFile filename keyName with
    | some err => (some (GoError.ext err), ev1)
    | none => (none, ev1 ++ [Event.PrintToUser "Key loaded"])

/-! ## pkg/utils/file.go -/

/-- Function `FileExists`.  The Go pair `(info, err)` returned by `os.Stat` has
a nil `info` whenever `err` is non-nil; calling `info.IsDir()` on it is a nil
dereference, rendered here as `none`. -/
def FileExists (rt : Runtime) (filename : String) : Option Bool :=
  -- info, err := os.Stat(filename)
  let stat : Option FileInfo × Option GoError :=
    match rt.Stat filename with
    | .ok i => (some i, none)
    | .error e => (none, some (GoError.ext e))
  if osIsNotExist stat.2 then
    some false
  else
    match stat.1 with
    | some info => some (!info.IsDir)
    | none => none

/-! ### The standard library's `filepath.Join` (Unix)

`filepath.Join` joins the elements after the leading empty ones with `/` and
returns `filepath.Clean` of that; with no non-empty element it returns the
empty string.  `Clean` drops empty and `.` components, lets a `..` component
cancel the component before it, drops `..` at the root of a rooted path, and
keeps it at the front of a relative one; the empty result is written `.`. -/

/-- The components of a path between its `/` separators. -/
def splitSep : List Char → List (List Char)
  | [] => [[]]
  | c :: cs =>
    match splitSep cs with
    | [] => [[]]
    | hd :: tl => if c = '/' then [] :: hd :: tl else (c :: hd) :: tl

/-- One component processed by `Clean`; `stack` holds the kept components,
last one first. -/
def cleanStep (rooted : Bool) (stack : List (List Char)) (comp : List Char) :
    List (List Char) :=
  if comp = [] ∨ comp = ['.'] then stack
  else if comp = ['.', '.'] then
    match stack with
    | [] => if rooted then [] else [comp]
    | top :: rest => if top = ['.', '.'] then comp :: top :: rest else rest
  else comp :: stack

/-- Components written back with `/` between them. -/
def joinSep : List (List Char) → List Char
  | [] => []
  | [c] => c
  | c :: d :: rest => c ++ '/' :: joinSep (d :: rest)

/-- Function `filepath.Clean` on the characters of a path. -/
def cleanChars (path : List Char) : List Char :=
  match path with
  | [] => ['.']
  | c :: _ =>
    let rooted : Bool := c = '/'
    let kept := ((splitSep path).foldl (cleanStep rooted) []).reverse
    if rooted then '/' :: joinSep kept
    else if kept = [] then ['.'] else joinSep kept

/-- Function `filepath.Join`. -/
def filepathJoin (elem : List String) : String :=
  match elem.dropWhile (fun e => e = "") with
  | [] => ""
  | rest => String.mk (cleanChars (joinSep (rest.map String.data)))

/-- Function `filepath.IsAbs` (Unix): the path begins with a separator. -/
def filepathIsAbs (path : String) : Bool :=
  match path.data with
  | c :: _ => c = '/'
  | [] => false

/-- Function `UserHomePath`. -/
def UserHomePath (rt : Runtime) (filePath : List String) : String :=
  match rt.UserHomeDir with
  | .error _ => filepathJoin filePath
  | .ok home =>
    let fullPath := [home] ++ filePath
    filepathJoin fullPath

/-! ## tests/e2e/commands/subnet.go -/

/-- What a test helper sees of its machine: the environment of the test
process, the files as `os.Stat` shows them, and the paths on which `os.Remove`
is refused whatever is there (permissions, a read-only volume, ...). -/
structure Machine where
  environ : String → Option String
  stat : String → Except ExtError FileInfo
  removeRefused : String → Option ExtError

/-- One call made by a test helper, with the arguments it was given. -/
inductive HelperEvent where
  | SubnetConfigExists (subnetName : String)
  | Setenv (key value : String)
  | Unsetenv (key : String)
  | CombinedOutput (name : String) (args : List String)
  | PrintCommand (name : String) (args : List String)
  | PrintOutput (output : String)
  | PrintStdErr (err : ExtError)
  | Stat (name : String)
  | Remove (name : String)
deriving DecidableEq, Repr

/-- Package-level names the helpers use and the sources do not declare
(`CLIBinary`, `SubnetCmd`, `ElasticTransformCmd`, the constants of
`pkg/constants`, `utils.GetBaseDir`), and the two callees
`utils.SubnetConfigExists` and `(*exec.Cmd).CombinedOutput`.  The child
process sees the environment it is started in, may change files, and cannot
change the environment of the test process. -/
structure Harness where
  CLIBinary : String
  SubnetCmd : String
  ElasticTransformCmd : String
  SimulatePublicNetwork : String
  SubnetDir : String
  ElasticSubnetConfigFileName : String
  GetBaseDir : String
  SubnetConfigExists : Machine → String → Bool × Option ExtError
  CombinedOutput : Machine → String → List String →
    (String × Option ExtError) × (String → Except ExtError FileInfo)

/-- How a helper ends: it returns, or one of its `gomega.Expect` assertions
fails and the test is aborted there. -/
inductive Run (α : Type) where
  | returned (result : α) (after : Machine) (calls : List HelperEvent)
  | aborted (after : Machine) (calls : List HelperEvent)

/-- The arguments `syscall.Setenv` rejects with `EINVAL`: an empty key, a key
with `=` or a NUL byte, a value with a NUL byte. -/
def setenvRejects (key value : String) : Bool :=
  decide (key = "") || key.data.any (fun c => decide (c = '=') || decide (c = Char.ofNat 0))
    || value.data.any (fun c => decide (c = Char.ofNat 0))

/-- Function `os.Setenv`. -/
def osSetenv (m : Machine) (key value : String) : Option ExtError × Machine :=
  if setenvRejects key value then
    (some { text := "setenv: invalid argument", notExist := false }, m)
  else
    (none, { m with environ := fun k => if k = key then some value else m.environ k })

/-- Function `os.Unsetenv` (Unix: it cannot fail). -/
def osUnsetenv (m : Machine) (key : String) : Option ExtError × Machine :=
  (none, { m with environ := fun k => if k = key then none else m.environ k })

/-- Function `SimulateFujiTransformSubnet`. -/
def SimulateFujiTransformSubnet (h : Harness) (m : Machine) (subnetName key : String) :
    Run (String × Option GoError) :=
  -- Check config exists
  let ev0 := [HelperEvent.SubnetConfigExists subnetName]
  match h.SubnetConfigExists m subnetName with
  | (_, some _) => Run.aborted m ev0
  | (false, none) => Run.aborted m ev0
  | (true, none) =>
    -- enable simulation of public network execution paths on a local network
    let ev1 := ev0 ++ [HelperEvent.Setenv h.SimulatePublicNetwork "true"]
    match osSetenv m h.SimulatePublicNetwork "true" with
    | (some _, m1) => Run.aborted m1 ev1
    | (none, m1) =>
      let args := [h.SubnetCmd, h.ElasticTransformCmd, "--fuji", "--key", key,
        "--tokenName", "BLIZZARD", "--tokenSymbol", "BRRR", "--denomination", "0",
        "--default", "--force", subnetName]
      let ran := h.CombinedOutput m1 h.CLIBinary args
      let output := ran.1.1
      let m2 : Machine := { m1 with stat := ran.2 }
      let ev2 := ev1 ++ [HelperEvent.CombinedOutput h.CLIBinary args]
      match ran.1.2 with
      | some err =>
        let ev3 := ev2 ++ [HelperEvent.PrintCommand h.CLIBinary args,
          HelperEvent.PrintOutput output, HelperEvent.PrintStdErr err,
          HelperEvent.Unsetenv h.SimulatePublicNetwork]
        match osUnsetenv m2 h.SimulatePublicNetwork with
        | (some _, m3) => Run.aborted m3 ev3
        | (none, m3) => Run.returned ("", some (GoError.ext err)) m3 ev3
      | none =>
        -- disable simulation of public network execution paths on a local network
        let ev3 := ev2 ++ [HelperEvent.Unsetenv h.SimulatePublicNetwork]
        match osUnsetenv m2 h.SimulatePublicNetwork with
        | (some _, m3) => Run.aborted m3 ev3
        | (none, m3) => Run.returned (output, none) m3 ev3


/-! ## Components specified but not among the sources

The subnet commands behind the test helpers (`subnet delete`, `subnet deploy`,
`transaction sign`) are not among the sources.  Their state and operations
are modelled here from sections 3, 4 and 7 of the specification. -/

/-- Modelled from the spec: the three network targets of section 3
(local | public-test | public-main). -/
inductive NetworkTarget where
  | localNetwork
  | publicTest
  | publicMain
deriving DecidableEq, Repr

/-- Modelled from the spec: the entry `NetworkState` of a Sidecar,
`{subnetID, chainID, elastic, elasticConfig?}`; the elastic config is the
token name, token symbol and denomination given to `TransformElastic`. -/
structure NetworkState where
  subnetID : String
  chainID : String
  elastic : Bool
  elasticConfig : Option (String × String × Nat)
deriving DecidableEq, Repr

/-- Modelled from the spec: the VM type of a Sidecar, one of
{custom-binary, standard-EVM-variant, other-registered-VM}. -/
inductive VMKind where
  | customBinary
  | standardEVM
  | otherRegistered
deriving DecidableEq, Repr

/-- Modelled from the spec: the Sidecar record of section 3, with its
per-network deployment state (absent entry: not yet deployed there). -/
structure SubnetSidecar where
  name : String
  vmType : VMKind
  vmVersion : String
  rpcVersion : Int
  tokenName : Option String
  networks : NetworkTarget → Option NetworkState

/-- Modelled from the spec: the ConfigBundle of section 3. -/
structure ConfigBundle where
  genesis : Bytes
  chainConfig : Option Bytes
  perNodeChainConfig : Option Bytes
  customVM : Option String
deriving DecidableEq, Repr

/-- Modelled from the spec: the persisted layout of section 6, one Sidecar and
one ConfigBundle per subnet name, and the residual elastic-conversion side
file a subnet may have. -/
structure SubnetStore where
  sidecars : String → Option SubnetSidecar
  bundles : String → Option ConfigBundle
  elasticSideFile : String → Bool

/-- Modelled from the spec: the error taxonomy of section 7. -/
inductive SpecError where
  | NotFoundError
  | AlreadyExistsError
  | AlreadyDeployedError
  | AlreadyElasticError
  | IncompatibleVersionError
  | ArtifactUnreadableError
  | UnauthorizedSignerError
  | AlreadySignedError
  | InsufficientSignaturesError
  | ExternalOperationError (diagnostic : String)
deriving DecidableEq, Repr

/-- Modelled from the spec: `SidecarStore.Exists(name)`. -/
def SidecarStore.Exists (st : SubnetStore) (name : String) : Bool :=
  (st.sidecars name).isSome

/-- Modelled from the spec: existence of the ConfigBundle of a subnet. -/
def ConfigBundle.Exists (st : SubnetStore) (name : String) : Bool :=
  (st.bundles name).isSome

/-- Modelled from the spec: the store without the Sidecar, the ConfigBundle
and the elastic-conversion side file of `name`. -/
def SubnetStore.without (st : SubnetStore) (name : String) : SubnetStore :=
  { sidecars := fun n => if n = name then none else st.sidecars n
    bundles := fun n => if n = name then none else st.bundles n
    elasticSideFile := fun n => if n = name then false else st.elasticSideFile n }

/-- Modelled from the spec: how a `Delete` of section 4.3 ends: the subnet is deleted, the user declined the
confirmation, or the operation failed. -/
inductive DeleteOutcome where
  | deleted
  | declined
  | failed (e : SpecError)
deriving DecidableEq, Repr

/-- Modelled from the spec: `SubnetConfigManager.Delete(name, force)` of
section 4.3, whose code (the `subnet delete` command) is not among the
sources: "fails with `NotFoundError` if absent; without `force`, requires an
interactive confirmation step (external collaborator); deletes ConfigBundle
and Sidecar and any residual elastic-conversion side file".  `confirm` is the
confirmation collaborator. -/
def SubnetConfigManager.Delete (confirm : String → Except ExtError Bool) (st : SubnetStore)
    (name : String) (force : Bool) : DeleteOutcome × SubnetStore :=
  if SidecarStore.Exists st name = false then
    (DeleteOutcome.failed SpecError.NotFoundError, st)
  else if force then
    (DeleteOutcome.deleted, st.without name)
  else
    match confirm name with
    | .error e => (DeleteOutcome.failed (SpecError.ExternalOperationError e.text), st)
    | .ok false => (DeleteOutcome.declined, st)
    | .ok true => (DeleteOutcome.deleted, st.without name)

/-- Modelled from the spec: `SidecarStore.SetNetworkState(name, network,
state)` of section 4.2, with its force-update flag: it "fails with
`AlreadyDeployedError` if `state` would replace an existing non-empty entry for
that network, unless an explicit force update flag is passed", and with
`NotFoundError` when there is no such Sidecar. -/
def SidecarStore.SetNetworkState (st : SubnetStore) (name : String) (network : NetworkTarget)
    (state : NetworkState) (forceUpdate : Bool) : Except SpecError SubnetStore :=
  match st.sidecars name with
  | none => Except.error SpecError.NotFoundError
  | some sc =>
    if (sc.networks network).isSome && !forceUpdate then
      Except.error SpecError.AlreadyDeployedError
    else
      Except.ok
        { st with
          sidecars := fun n =>
            if n = name then
              some { sc with networks := fun t => if t = network then some state else sc.networks t }
            else st.sidecars n }

/-- Modelled from the spec: the external collaborators of a deploy (section 6): the VersionResolver and the network-join
protocol of the node control plane, which answers with the subnet ID and the
chain ID or with a diagnostic. -/
structure DeployCollaborators where
  ResolveRuntimeVersion : String → Except SpecError String
  join : String → NetworkTarget → String → Except String (String × String)

/-- Modelled from the spec: `DeploymentOrchestrator.Deploy(name, network,
runtimeVersionOverride?)` of section 4.4, whose code (the `subnet deploy`
command) is not among the sources: "guard `undeployed`; resolves runtime
version via VersionResolver unless overridden; invokes the network-join
protocol; on success writes `NetworkState{subnetID, chainID}`; fails with
`AlreadyDeployedError` if guard violated".  The Sidecar is loaded first
(`NotFoundError` if absent). -/
def DeploymentOrchestrator.Deploy (c : DeployCollaborators) (st : SubnetStore) (name : String)
    (network : NetworkTarget) (runtimeVersionOverride : Option String) :
    Except SpecError Unit × SubnetStore :=
  match st.sidecars name with
  | none => (Except.error SpecError.NotFoundError, st)
  | some sc =>
    match sc.networks network with
    | some _ => (Except.error SpecError.AlreadyDeployedError, st)
    | none =>
      let runtime : Except SpecError String :=
        match runtimeVersionOverride with
        | some v => Except.ok v
        | none => c.ResolveRuntimeVersion sc.vmVersion
      match runtime with
      | .error e => (Except.error e, st)
      | .ok runtimeVersion =>
        match c.join name network runtimeVersion with
        | .error diagnostic => (Except.error (SpecError.ExternalOperationError diagnostic), st)
        | .ok ids =>
          match SidecarStore.SetNetworkState st name network
              { subnetID := ids.1, chainID := ids.2, elastic := false, elasticConfig := none }
              false with
          | .error e => (Except.error e, st)
          | .ok st1 => (Except.ok (), st1)

/-- Modelled from the spec: the kinds of a TransactionArtifact. -/
inductive ArtifactKind where
  | chainCreation
  | addValidator
  | removeValidator
  | transformElastic
deriving DecidableEq, Repr

/-- Modelled from the spec: the states of the TransactionWorkflow,
`proposed -> partially-signed -> ready-to-commit -> committed`. -/
inductive ArtifactStatus where
  | proposed
  | partiallySigned
  | readyToCommit
  | committed
deriving DecidableEq, Repr

/-- Modelled from the spec: the TransactionArtifact of section 3. -/
structure TransactionArtifact where
  kind : ArtifactKind
  unsignedPayload : Bytes
  requiredAuthorizers : List String
  threshold : Int
  collectedSignatures : List (String × Bytes)
  status : ArtifactStatus
deriving DecidableEq, Repr

/-- The identities that have signed an artifact. -/
def TransactionArtifact.signers (artifact : TransactionArtifact) : List String :=
  artifact.collectedSignatures.map Prod.fst

/-- Modelled from the spec: `TransactionWorkflow.Sign(artifact,
signerIdentity)` of section 4.5, whose code is not among the sources: it
"rejects with `UnauthorizedSignerError` if `signerIdentity` is not in
`requiredAuthorizers`; rejects with `AlreadySignedError` if that signer already
contributed; appends signature; transitions to `ready-to-commit` once
`len(collectedSignatures) >= threshold`, else `partially-signed`".
`signature` is what the key-management collaborator produced for the signer. -/
def TransactionWorkflow.Sign (artifact : TransactionArtifact) (signerIdentity : String)
    (signature : Bytes) : Except SpecError TransactionArtifact :=
  if signerIdentity ∉ artifact.requiredAuthorizers then
    Except.error SpecError.UnauthorizedSignerError
  else if signerIdentity ∈ artifact.signers then
    Except.error SpecError.AlreadySignedError
  else
    let collected := artifact.collectedSignatures ++ [(signerIdentity, signature)]
    Except.ok
      { artifact with
        collectedSignatures := collected
        status :=
          if artifact.threshold ≤ (collected.length : Int) then ArtifactStatus.readyToCommit
          else ArtifactStatus.partiallySigned }

/-- Repeated `Sign` calls on one artifact; a rejected call leaves it as it was. -/
def signAll (artifact : TransactionArtifact) (calls : List (String × Bytes)) :
    TransactionArtifact :=
  calls.foldl
    (fun a call =>
      match TransactionWorkflow.Sign a call.1 call.2 with
      | .ok a1 => a1
      | .error _ => a)
    artifact

/-- The number of distinct authorized identities among the signers of `calls`. -/
def distinctAuthorized (requiredAuthorizers : List String) (calls : List (String × Bytes)) :
    Nat :=
  (((calls.map Prod.fst).filter (fun s => decide (s ∈ requiredAuthorizers))).dedup).length


/-! ## Specification vocabulary -/

/-- The path a step works on: the one given, or the answer of the prompt to
`msg` when none was given. -/
def UsedPath (app : Avalanche) (given msg used : String) : Prop :=
  if given = "" then app.Prompt.CaptureExistingFilepath msg = Except.ok used else used = given

/-- The prompt call made to resolve a path, if any. -/
def askedFor (given msg : String) : List Event :=
  if given = "" then [Event.CaptureExistingFilepath msg] else []

/-- The confirmation question `deleteKey` puts to the user. -/
def deletePrompt (keyName : String) : String :=
  "Are you sure you want to delete " ++ keyName ++ "?"

/-- The error `createKey` returns for an existing key when `--force` is unset. -/
def keyExistsError : GoError :=
  GoError.errorsNew "key already exists. Use --force parameter to overwrite"

/-- Outcome of resolving a path: the outcome of the prompt when none was given. -/
def resolvePath (app : Avalanche) (given msg : String) : Except ExtError String :=
  if given = "" then app.Prompt.CaptureExistingFilepath msg else Except.ok given

/-- The sidecar literal built by `CreateCustomSubnetConfig`. -/
def customSidecar (subnetName : String) (rpcVersion : Int) : Sidecar :=
  { Name := subnetName, VM := CustomVM, VMVersion := "", RPCVersion := rpcVersion,
    Subnet := subnetName, TokenName := "" }

/-- Straight-line description of `CreateCustomSubnetConfig`, one `match` per
step that can end the call; `CreateCustomSubnetConfig_eq_steps` shows it equal
to the embedded function. -/
def createCustomSteps (rt : Runtime) (app : Avalanche) (subnetName genesisPath vmPath : String) :
    (Option Bytes × Sidecar × Option GoError) × List Event :=
  let ev0 := [Event.PrintToUser ("creating custom VM subnet " ++ subnetName)]
    ++ askedFor genesisPath "Enter path to custom genesis"
  match resolvePath app genesisPath "Enter path to custom genesis" with
  | .error e => ((none, Sidecar.empty, some (GoError.ext e)), ev0)
  | .ok g =>
    match (rt.ReadFile g).2 with
    | some e => ((none, Sidecar.empty, some (GoError.ext e)), ev0 ++ [Event.ReadFile g])
    | none =>
      let ev1 := ev0 ++ [Event.ReadFile g] ++ askedFor vmPath "Enter path to vm binary"
      match resolvePath app vmPath "Enter path to vm binary" with
      | .error e => ((none, Sidecar.empty, some (GoError.ext e)), ev1)
      | .ok v =>
        match rt.GetVMBinaryProtocolVersion v with
        | .error e =>
          ((none, Sidecar.empty,
            some (GoError.errorf "unable to get RPC version: " (GoError.ext e))),
            ev1 ++ [Event.GetVMBinaryProtocolVersion v])
        | .ok rpc =>
          (((rt.ReadFile g).1, customSidecar subnetName rpc,
              (app.CopyVMBinary v subnetName).map GoError.ext),
            ev1 ++ [Event.GetVMBinaryProtocolVersion v, Event.CopyVMBinary v subnetName])

/-- `p` names the directory `dir` or something below it. -/
def pathInside (dir p : String) : Prop :=
  p = dir ∨ (dir.data ++ ['/']) <+: p.data ∨ (dir = "/" ∧ filepathIsAbs p = true)

instance (dir p : String) : Decidable (pathInside dir p) := by
  unfold pathInside
  infer_instance

/-- The contract the doc comment of `UserHomePath` announces, "the absolute
path of a file located in the user's home directory": the result is
`filepath.Join(home, elements...)` for the home directory `home` of the user,
an absolute path inside that directory. -/
def UserHomePathContract (rt : Runtime) (filePath : List String) : Prop :=
  ∃ home, rt.UserHomeDir = Except.ok home ∧
    UserHomePath rt filePath = filepathJoin (home :: filePath) ∧
    filepathIsAbs (UserHomePath rt filePath) = true ∧
    pathInside (filepathJoin [home]) (UserHomePath rt filePath)

/-- The value a helper returned, if it returned. -/
def Run.result? {α : Type} : Run α → Option α
  | .returned result _ _ => some result
  | .aborted _ _ => none

/-- The machine as the helper left it. -/
def Run.after {α : Type} : Run α → Machine
  | .returned _ after _ => after
  | .aborted after _ => after

/-- The calls the helper made, in order. -/
def Run.calls {α : Type} : Run α → List HelperEvent
  | .returned _ _ calls => calls
  | .aborted _ calls => calls

/-- The machine with the simulate-public-network switch set to "true". -/
def simulating (h : Harness) (m : Machine) : Machine :=
  { m with environ := fun k => if k = h.SimulatePublicNetwork then some "true" else m.environ k }

/-- The command line `SimulateFujiTransformSubnet` runs, after the binary. -/
def transformArgs (h : Harness) (subnetName key : String) : List String :=
  [h.SubnetCmd, h.ElasticTransformCmd, "--fuji", "--key", key, "--tokenName", "BLIZZARD",
    "--tokenSymbol", "BRRR", "--denomination", "0", "--default", "--force", subnetName]

/-- What every artifact reached from a proposed one by `Sign` calls satisfies:
no identity signed twice, every signer is authorized, and the status follows
the number of signatures. -/
def SignedConsistently (a : TransactionArtifact) : Prop :=
  a.signers.Nodup ∧
  (∀ s ∈ a.signers, s ∈ a.requiredAuthorizers) ∧
  (a.collectedSignatures = [] → a.status = ArtifactStatus.proposed) ∧
  (a.collectedSignatures ≠ [] →
    a.status =
      if a.threshold ≤ (a.collectedSignatures.length : Int) then ArtifactStatus.readyToCommit
      else ArtifactStatus.partiallySigned)

/-- A prompt that answers every path question and declines every yes/no question. -/
def demoPrompter : Prompter :=
  { CaptureExistingFilepath := fun msg =>
      if msg = "Enter path to vm binary" then Except.ok "/tmp/myvm"
      else Except.ok "/tmp/genesis.json"
    CaptureNoYes := fun _ => Except.ok false }

/-- An application whose key store holds the key `alice`. -/
def demoApp : Avalanche :=
  { Prompt := demoPrompter
    GetKeyPath := fun keyName => "/home/u/.avalanche-cli/key/" ++ keyName ++ ".pk"
    KeyExists := fun keyName => decide (keyName = "alice")
    CopyKeyFile := fun _ _ => none
    CopyVMBinary := fun _ _ => none }

/-- A machine with a genesis file, a working VM binary and the key file of `alice`. -/
def demoRuntime : Runtime :=
  { ReadFile := fun name =>
      if name = "/tmp/genesis.json" then (some [123, 125], none)
      else (none, some { text := "open: no such file or directory", notExist := true })
    Stat := fun name =>
      if name = "/home/u/.avalanche-cli/key/alice.pk" then Except.ok { IsDir := false }
      else if name = "/home/u" then Except.ok { IsDir := true }
      else Except.error { text := "stat: no such file or directory", notExist := true }
    Remove := fun _ => none
    UserHomeDir := Except.ok "/home/u"
    GetVMBinaryProtocolVersion := fun vmPath =>
      if vmPath = "/tmp/myvm" then Except.ok 26
      else Except.error { text := "fork/exec: exec format error", notExist := false }
    NewSoft := fun _ => Except.ok { privKeyRaw := [1, 2, 3] }
    Save := fun _ _ => none
    printAddresses := fun _ => none }

/-- The demo machine with `$HOME` unset: `os.UserHomeDir` fails. -/
def noHomeRuntime : Runtime :=
  { demoRuntime with
    UserHomeDir := Except.error { text := "$HOME is not defined", notExist := false } }

/-- The demo machine with a relative `$HOME`, which `os.UserHomeDir` returns as it is. -/
def relHomeRuntime : Runtime :=
  { demoRuntime with UserHomeDir := Except.ok "work/home" }

/-- A call of the interactive prompt. -/
def Event.isPrompt : Event → Bool
  | .CaptureExistingFilepath _ => true
  | .CaptureNoYes _ => true
  | _ => false

/-- A call that belongs to the VM steps of `CreateCustomSubnetConfig`: the
prompt for the VM path, the protocol version extraction, the binary copy. -/
def Event.isVMStep : Event → Bool
  | .CaptureExistingFilepath promptStr => promptStr = "Enter path to vm binary"
  | .GetVMBinaryProtocolVersion _ => true
  | .CopyVMBinary _ _ => true
  | _ => false

/-- A machine on which the genesis file and the VM binary are fine and the
copy of the VM binary into the subnet's storage fails. -/
def fullDiskApp : Avalanche :=
  { demoApp with
    CopyVMBinary := fun _ _ => some { text := "write: no space left on device", notExist := false } }

/-- The demo machine with a key directory the process may not search:
`os.Stat` fails there with a permission error. -/
def lockedRuntime : Runtime :=
  { demoRuntime with
    Stat := fun _ => Except.error { text := "stat: permission denied", notExist := false } }

/-- A machine with an elastic subnet config file for `sub1` and nothing else. -/
def demoMachine : Machine :=
  { environ := fun k => if k = "HOME" then some "/home/u" else none
    stat := fun p =>
      if p = "/home/u/.avalanche-cli/subnets/sub1/elastic_subnet_config.json" then
        Except.ok { IsDir := false }
      else Except.error { text := "stat: no such file or directory", notExist := true }
    removeRefused := fun _ => none }

/-- A harness whose CLI command fails for the subnet `broken` and prints
`done` for every other one. -/
def demoHarness : Harness :=
  { CLIBinary := "./bin/avalanche"
    SubnetCmd := "subnet"
    ElasticTransformCmd := "elastic"
    SimulatePublicNetwork := "SIMULATE_PUBLIC_NETWORK"
    SubnetDir := "subnets"
    ElasticSubnetConfigFileName := "elastic_subnet_config.json"
    GetBaseDir := "/home/u/.avalanche-cli"
    SubnetConfigExists := fun _ _ => (true, none)
    CombinedOutput := fun m _ args =>
      (if "broken" ∈ args then
          ("Error: transform failed", some { text := "exit status 1", notExist := false })
        else ("done", none),
        m.stat) }

/-- The Sidecar of a subnet `sub1` that is not deployed anywhere. -/
def demoSidecar : SubnetSidecar :=
  { name := "sub1", vmType := VMKind.standardEVM, vmVersion := "v0.5.2", rpcVersion := 26,
    tokenName := some "TEST", networks := fun _ => none }

/-- A store with the subnet `sub1`, its bundle and a leftover elastic side file. -/
def demoStore : SubnetStore :=
  { sidecars := fun n => if n = "sub1" then some demoSidecar else none
    bundles := fun n =>
      if n = "sub1" then
        some { genesis := [123, 125], chainConfig := none, perNodeChainConfig := none,
               customVM := none }
      else none
    elasticSideFile := fun n => decide (n = "sub1") }

/-- Collaborators that resolve every VM version and join every network. -/
def demoCollaborators : DeployCollaborators :=
  { ResolveRuntimeVersion := fun _ => Except.ok "v1.10.5"
    join := fun _ _ _ => Except.ok ("subnet-1", "chain-1") }

/-- Collaborators that fail at every step. -/
def failingCollaborators : DeployCollaborators :=
  { ResolveRuntimeVersion := fun _ => Except.error SpecError.IncompatibleVersionError
    join := fun _ _ _ => Except.error "connection refused" }

/-- A proposed artifact with three authorizers and threshold 2. -/
def demoArtifact : TransactionArtifact :=
  { kind := ArtifactKind.addValidator
    unsignedPayload := [1, 2, 3]
    requiredAuthorizers := ["P-alice", "P-bob", "P-carol"]
    threshold := 2
    collectedSignatures := []
    status := ArtifactStatus.proposed }

/-- The demo machine asked about a path below the regular file `/etc/passwd`:
nothing exists at `/etc/passwd/x`, and `os.Stat` fails there with "not a
directory", which `os.IsNotExist` does not count as a not-exist error. -/
def belowFileRuntime : Runtime :=
  { demoRuntime with
    Stat := fun name =>
      if name = "/etc/passwd" then Except.ok { IsDir := false }
      else if name = "/etc/passwd/x" then
        Except.error { text := "stat /etc/passwd/x: not a directory", notExist := false }
      else demoRuntime.Stat name }

/-- The demo application with a prompt that fails on every question (its
input is closed). -/
def closedPromptApp : Avalanche :=
  { demoApp with
    Prompt :=
      { CaptureExistingFilepath := fun _ =>
          Except.error { text := "prompt: EOF", notExist := false }
        CaptureNoYes := fun _ => Except.error { text := "prompt: EOF", notExist := false } } }

/-! ## Lemmas shared by the theorems -/

theorem usedPath_iff (app : Avalanche) (given msg used : String) :
    UsedPath app given msg used ↔ resolvePath app given msg = Except.ok used := by
  unfold UsedPath resolvePath
  by_cases h : given = ""
  · simp [h]
  · simp [h, eq_comm]

theorem mem_askedFor_iff (e : Event) (given msg : String) :
    e ∈ askedFor given msg ↔ given = "" ∧ e = Event.CaptureExistingFilepath msg := by
  unfold askedFor
  by_cases h : given = "" <;> simp [h]

theorem CreateCustomSubnetConfig_eq_steps (rt : Runtime) (app : Avalanche)
    (subnetName genesisPath vmPath : String) :
    CreateCustomSubnetConfig rt app subnetName genesisPath vmPath =
      createCustomSteps rt app subnetName genesisPath vmPath := by
  unfold CreateCustomSubnetConfig loadCustomGenesis createCustomSteps resolvePath askedFor
    customSidecar
  by_cases hg : genesisPath = "" <;> by_cases hv : vmPath = "" <;>
    simp only [hg, hv, if_true, if_false] <;>
    repeat (first | rfl | split | simp_all)

/-- Every successful call went through all five steps. -/
theorem CreateCustomSubnetConfig_ok_inv (rt : Runtime) (app : Avalanche)
    (subnetName genesisPath vmPath : String)
    (h : (CreateCustomSubnetConfig rt app subnetName genesisPath vmPath).1.2.2 = none) :
    ∃ g v rpc,
      resolvePath app genesisPath "Enter path to custom genesis" = Except.ok g ∧
      (rt.ReadFile g).2 = none ∧
      resolvePath app vmPath "Enter path to vm binary" = Except.ok v ∧
      rt.GetVMBinaryProtocolVersion v = Except.ok rpc ∧
      app.CopyVMBinary v subnetName = none ∧
      CreateCustomSubnetConfig rt app subnetName genesisPath vmPath =
        (((rt.ReadFile g).1, customSidecar subnetName rpc, none),
         [Event.PrintToUser ("creating custom VM subnet " ++ subnetName)]
           ++ askedFor genesisPath "Enter path to custom genesis" ++ [Event.ReadFile g]
           ++ askedFor vmPath "Enter path to vm binary"
           ++ [Event.GetVMBinaryProtocolVersion v, Event.CopyVMBinary v subnetName]) := by
  rw [CreateCustomSubnetConfig_eq_steps] at h ⊢
  unfold createCustomSteps at h ⊢
  cases hg : resolvePath app genesisPath "Enter path to custom genesis" with
  | error e => simp [hg] at h
  | ok g =>
    cases hr : (rt.ReadFile g).2 with
    | some e => simp [hg, hr] at h
    | none =>
      cases hv : resolvePath app vmPath "Enter path to vm binary" with
      | error e => simp [hg, hr, hv] at h
      | ok v =>
        cases hp : rt.GetVMBinaryProtocolVersion v with
        | error e => simp [hg, hr, hv, hp] at h
        | ok rpc =>
          cases hc : app.CopyVMBinary v subnetName with
          | some e => simp [hg, hr, hv, hp, hc] at h
          | none => exact ⟨g, v, rpc, rfl, hr, rfl, hp, hc, by simp [hr, hp, hc]⟩

theorem splitSep_ne_nil (p : List Char) : splitSep p ≠ [] := by
  cases p with
  | nil => simp [splitSep]
  | cons c cs =>
    unfold splitSep
    split
    · simp
    · split <;> simp

theorem splitSep_append_sep (a t : List Char) :
    splitSep (a ++ '/' :: t) = splitSep a ++ splitSep t := by
  induction a with
  | nil =>
    have := splitSep_ne_nil t
    cases ht : splitSep t with
    | nil => exact absurd ht this
    | cons hd tl => simp [splitSep, ht]
  | cons c a ih =>
    have := splitSep_ne_nil a
    cases ha : splitSep a with
    | nil => exact absurd ha this
    | cons hd tl =>
      rw [ha] at ih
      by_cases hc : c = '/' <;> simp [splitSep, ih, ha, hc]

theorem splitSep_joinSep (a : List Char) (rest : List (List Char)) :
    splitSep (joinSep (a :: rest)) = splitSep a ++ rest.flatMap splitSep := by
  induction rest generalizing a with
  | nil => simp [joinSep]
  | cons b rest ih =>
    simp only [joinSep, splitSep_append_sep, ih, List.flatMap_cons]

theorem foldl_cleanStep_no_dotdot (rooted : Bool) (comps : List (List Char))
    (h : ['.', '.'] ∉ comps) (stack : List (List Char)) :
    ∃ more, comps.foldl (cleanStep rooted) stack = more ++ stack := by
  induction comps generalizing stack with
  | nil => exact ⟨[], rfl⟩
  | cons c comps ih =>
    simp only [List.mem_cons, not_or] at h
    obtain ⟨more, hm⟩ := ih h.2 (cleanStep rooted stack c)
    simp only [List.foldl_cons, hm]
    unfold cleanStep
    by_cases h1 : c = [] ∨ c = ['.']
    · exact ⟨more, by simp [h1]⟩
    · have h2 : ¬ c = ['.', '.'] := fun hc => h.1 hc.symm
      exact ⟨more ++ [c], by simp [h1, h2]⟩

theorem joinSep_append (a b : List (List Char)) (ha : a ≠ []) (hb : b ≠ []) :
    joinSep (a ++ b) = joinSep a ++ '/' :: joinSep b := by
  induction a with
  | nil => exact absurd rfl ha
  | cons x a ih =>
    cases a with
    | nil =>
      cases b with
      | nil => exact absurd rfl hb
      | cons y b => simp [joinSep]
    | cons x2 a =>
      have := ih (by simp)
      simp only [List.cons_append] at this ⊢
      simp [joinSep, this]

theorem filepathIsAbs_iff (p : String) :
    filepathIsAbs p = true ↔ ∃ t, p.data = '/' :: t := by
  unfold filepathIsAbs
  cases h : p.data with
  | nil => simp
  | cons c t => simp

theorem joinSep_rooted (t : List Char) (rest : List (List Char)) :
    ∃ u, joinSep (('/' :: t) :: rest) = '/' :: u := by
  cases rest with
  | nil => exact ⟨t, rfl⟩
  | cons b rest => exact ⟨t ++ '/' :: joinSep (b :: rest), rfl⟩

/-- `Join` of a rooted first element followed by `rest`, in terms of the
component stack. -/
theorem filepathJoin_rooted (home : String) (t : List Char) (rest : List String)
    (h : home.data = '/' :: t) :
    (filepathJoin (home :: rest)).data =
      '/' :: joinSep
        (((rest.map String.data).flatMap splitSep).foldl (cleanStep true)
          ((splitSep home.data).foldl (cleanStep true) [])).reverse := by
  have hne : ¬ home = "" := by
    intro h0
    rw [h0] at h
    simp at h
  obtain ⟨u, hu⟩ := joinSep_rooted t (rest.map String.data)
  have hsplit := splitSep_joinSep home.data (rest.map String.data)
  unfold filepathJoin
  simp only [List.dropWhile_cons, hne, decide_False, Bool.false_eq_true, if_false, List.map_cons]
  rw [h] at hsplit ⊢
  rw [hu] at hsplit ⊢
  simp [cleanChars, hsplit, List.foldl_append]

/-- A rooted directory joined with elements that have no `..` component
stays inside that directory. -/
theorem filepathJoin_inside (home : String) (filePath : List String)
    (habs : filepathIsAbs home = true)
    (hdots : ∀ e ∈ filePath, ['.', '.'] ∉ splitSep e.data) :
    pathInside (filepathJoin [home]) (filepathJoin (home :: filePath)) := by
  obtain ⟨t, ht⟩ := (filepathIsAbs_iff home).1 habs
  have hdir := filepathJoin_rooted home t [] ht
  have hres := filepathJoin_rooted home t filePath ht
  simp only [List.map_nil, List.flatMap_nil, List.foldl_nil] at hdir
  have hno : ['.', '.'] ∉ (filePath.map String.data).flatMap splitSep := by
    simp only [List.mem_flatMap, List.mem_map, not_exists, not_and]
    rintro _ ⟨e, he, rfl⟩
    exact hdots e he
  obtain ⟨more, hmore⟩ := foldl_cleanStep_no_dotdot true _ hno
    ((splitSep home.data).foldl (cleanStep true) [])
  rw [hmore, List.reverse_append] at hres
  generalize (splitSep home.data).foldl (cleanStep true) [] = S at hdir hres
  unfold pathInside
  by_cases hm : more = []
  · left
    apply String.ext
    rw [hres, hdir, hm]
    simp
  · by_cases hS : S = []
    · right; right
      refine ⟨String.ext ?_, (filepathIsAbs_iff _).2 ⟨_, hres⟩⟩
      rw [hdir, hS]
      rfl
    · right; left
      rw [hres, hdir, joinSep_append _ _ (by simpa using hS) (by simpa using hm)]
      exact ⟨joinSep more.reverse, by simp⟩

theorem loadCustomGenesis_eq (rt : Runtime) (app : Avalanche) (genesisPath : String) :
    loadCustomGenesis rt app genesisPath =
      match resolvePath app genesisPath "Enter path to custom genesis" with
      | .error e =>
        ((none, some (GoError.ext e)), askedFor genesisPath "Enter path to custom genesis")
      | .ok g =>
        (((rt.ReadFile g).1, (rt.ReadFile g).2.map GoError.ext),
          askedFor genesisPath "Enter path to custom genesis" ++ [Event.ReadFile g]) := by
  unfold loadCustomGenesis resolvePath askedFor
  by_cases hg : genesisPath = ""
  · simp only [hg, if_true]
  · simp only [hg, if_false]

theorem loadCustomGenesis_events (rt : Runtime) (app : Avalanche) (genesisPath : String)
    (ev : Event) (h : ev ∈ (loadCustomGenesis rt app genesisPath).2) :
    (genesisPath = "" ∧ ev = Event.CaptureExistingFilepath "Enter path to custom genesis") ∨
    ∃ used, UsedPath app genesisPath "Enter path to custom genesis" used ∧
      ev = Event.ReadFile used := by
  rw [loadCustomGenesis_eq] at h
  cases hr : resolvePath app genesisPath "Enter path to custom genesis" with
  | error e =>
    simp only [hr, mem_askedFor_iff] at h
    exact Or.inl h
  | ok g =>
    simp only [hr, List.mem_append, List.mem_singleton, mem_askedFor_iff] at h
    rcases h with h | h
    · exact Or.inl h
    · exact Or.inr ⟨g, (usedPath_iff _ _ _ _).2 hr, h⟩

theorem osSetenv_accepted (m : Machine) (key value : String)
    (h : setenvRejects key value = false) :
    osSetenv m key value =
      (none, { m with environ := fun k => if k = key then some value else m.environ k }) := by
  unfold osSetenv
  simp [h]

theorem Sign_accepted (a : TransactionArtifact) (s : String) (sig : Bytes)
    (hauth : s ∈ a.requiredAuthorizers) (hnew : s ∉ a.signers) :
    TransactionWorkflow.Sign a s sig =
      Except.ok
        { a with
          collectedSignatures := a.collectedSignatures ++ [(s, sig)]
          status :=
            if a.threshold ≤ ((a.collectedSignatures ++ [(s, sig)]).length : Int) then
              ArtifactStatus.readyToCommit
            else ArtifactStatus.partiallySigned } := by
  unfold TransactionWorkflow.Sign
  simp [hauth, hnew]

theorem signAll_cons (a : TransactionArtifact) (call : String × Bytes)
    (calls : List (String × Bytes)) :
    signAll a (call :: calls) =
      signAll
        (match TransactionWorkflow.Sign a call.1 call.2 with
          | .ok a1 => a1
          | .error _ => a)
        calls := rfl

theorem signAll_invariant (calls : List (String × Bytes)) :
    ∀ a : TransactionArtifact, SignedConsistently a →
      SignedConsistently (signAll a calls) ∧
      (signAll a calls).requiredAuthorizers = a.requiredAuthorizers ∧
      (signAll a calls).threshold = a.threshold ∧
      (∀ s, s ∈ (signAll a calls).signers ↔
        (s ∈ a.signers ∨ (s ∈ calls.map Prod.fst ∧ s ∈ a.requiredAuthorizers))) := by
  induction calls with
  | nil =>
    intro a ha
    exact ⟨ha, rfl, rfl, by simp [signAll]⟩
  | cons call calls ih =>
    intro a ha
    rw [signAll_cons]
    by_cases hauth : call.1 ∈ a.requiredAuthorizers
    · by_cases hnew : call.1 ∈ a.signers
      · have hrej : TransactionWorkflow.Sign a call.1 call.2 =
            Except.error SpecError.AlreadySignedError := by
          unfold TransactionWorkflow.Sign
          simp [hauth, hnew]
        rw [hrej]
        obtain ⟨h1, h2, h3, h4⟩ := ih a ha
        refine ⟨h1, h2, h3, ?_⟩
        intro s
        rw [h4 s]
        simp only [List.map_cons, List.mem_cons]
        constructor
        · rintro (h | ⟨h, h'⟩)
          · exact Or.inl h
          · exact Or.inr ⟨Or.inr h, h'⟩
        · rintro (h | ⟨h | h, h'⟩)
          · exact Or.inl h
          · exact Or.inl (h ▸ hnew)
          · exact Or.inr ⟨h, h'⟩
      · rw [Sign_accepted a call.1 call.2 hauth hnew]
        obtain ⟨hnd, hsub, -, -⟩ := ha
        have hinv : SignedConsistently
            { a with
              collectedSignatures := a.collectedSignatures ++ [(call.1, call.2)]
              status :=
                if a.threshold ≤ ((a.collectedSignatures ++ [(call.1, call.2)]).length : Int)
                then ArtifactStatus.readyToCommit
                else ArtifactStatus.partiallySigned } := by
          refine ⟨?_, ?_, ?_, ?_⟩
          · simp only [TransactionArtifact.signers, List.map_append, List.map_cons,
              List.map_nil]
            rw [List.nodup_append]
            refine ⟨hnd, by simp, ?_⟩
            intro x hx hx'
            simp only [List.mem_singleton] at hx'
            exact hnew (hx' ▸ hx)
          · intro s hs
            simp only [TransactionArtifact.signers, List.map_append, List.map_cons,
              List.map_nil, List.mem_append, List.mem_singleton] at hs
            rcases hs with hs | hs
            · exact hsub s hs
            · exact hs ▸ hauth
          · intro hnil
            simp at hnil
          · intro _
            rfl
        obtain ⟨h1, h2, h3, h4⟩ := ih _ hinv
        refine ⟨h1, h2, h3, ?_⟩
        intro s
        rw [h4 s]
        simp only [TransactionArtifact.signers, List.map_append, List.map_cons, List.map_nil,
          List.mem_append, List.mem_cons, List.not_mem_nil, or_false]
        constructor
        · rintro ((h | h) | ⟨h, h'⟩)
          · exact Or.inl h
          · exact Or.inr ⟨Or.inl h, h ▸ hauth⟩
          · exact Or.inr ⟨Or.inr h, h'⟩
        · rintro (h | ⟨h | h, h'⟩)
          · exact Or.inl (Or.inl h)
          · exact Or.inl (Or.inr h)
          · exact Or.inr ⟨h, h'⟩
    · have hrej : TransactionWorkflow.Sign a call.1 call.2 =
          Except.error SpecError.UnauthorizedSignerError := by
        unfold TransactionWorkflow.Sign
        simp [hauth]
      rw [hrej]
      obtain ⟨h1, h2, h3, h4⟩ := ih a ha
      refine ⟨h1, h2, h3, ?_⟩
      intro s
      rw [h4 s]
      simp only [List.map_cons, List.mem_cons]
      constructor
      · rintro (h | ⟨h, h'⟩)
        · exact Or.inl h
        · exact Or.inr ⟨Or.inr h, h'⟩
      · rintro (h | ⟨h | h, h'⟩)
        · exact Or.inl h
        · exact absurd (h ▸ h') hauth
        · exact Or.inr ⟨h, h'⟩

theorem signAll_count (a : TransactionArtifact) (calls : List (String × Bytes))
    (hfresh : a.collectedSignatures = []) (hstatus : a.status = ArtifactStatus.proposed) :
    SignedConsistently (signAll a calls) ∧
    (signAll a calls).requiredAuthorizers = a.requiredAuthorizers ∧
    (signAll a calls).threshold = a.threshold ∧
    (signAll a calls).collectedSignatures.length =
      distinctAuthorized a.requiredAuthorizers calls := by
  have ha : SignedConsistently a :=
    ⟨by simp [TransactionArtifact.signers, hfresh],
      by simp [TransactionArtifact.signers, hfresh], fun _ => hstatus,
      fun h => absurd hfresh h⟩
  obtain ⟨h1, h2, h3, h4⟩ := signAll_invariant calls a ha
  refine ⟨h1, h2, h3, ?_⟩
  have hperm : (signAll a calls).signers.Perm
      (((calls.map Prod.fst).filter (fun s => decide (s ∈ a.requiredAuthorizers))).dedup) := by
    rw [List.perm_ext_iff_of_nodup h1.1 (List.nodup_dedup _)]
    intro s
    rw [h4 s]
    simp [TransactionArtifact.signers, hfresh]
  have hlen := hperm.length_eq
  simp only [TransactionArtifact.signers, List.length_map] at hlen
  exact hlen


/-! ## Theorems: pkg/vm/createCustom.go -/

/-- C1: whenever `CreateCustomSubnetConfig` returns a nil error, the returned
Sidecar has `Name = subnetName`, `Subnet = subnetName`, `VM = CustomVM`, empty
`VMVersion` and `TokenName`, and its `RPCVersion` is the value
`GetVMBinaryProtocolVersion` reported for the VM binary path actually used:
the given `vmPath`, or the prompted one when `vmPath` was empty.  That path is
the only one `GetVMBinaryProtocolVersion` was called on. -/
theorem CreateCustomSubnetConfig_sidecar (rt : Runtime) (app : Avalanche)
    (subnetName genesisPath vmPath : String)
    (h : (CreateCustomSubnetConfig rt app subnetName genesisPath vmPath).1.2.2 = none) :
    (CreateCustomSubnetConfig rt app subnetName genesisPath vmPath).1.2.1.Name = subnetName ∧
    (CreateCustomSubnetConfig rt app subnetName genesisPath vmPath).1.2.1.Subnet = subnetName ∧
    (CreateCustomSubnetConfig rt app subnetName genesisPath vmPath).1.2.1.VM = CustomVM ∧
    (CreateCustomSubnetConfig rt app subnetName genesisPath vmPath).1.2.1.VMVersion = "" ∧
    (CreateCustomSubnetConfig rt app subnetName genesisPath vmPath).1.2.1.TokenName = "" ∧
    ∃ used,
      UsedPath app vmPath "Enter path to vm binary" used ∧
      (∀ p, Event.GetVMBinaryProtocolVersion p ∈
          (CreateCustomSubnetConfig rt app subnetName genesisPath vmPath).2 ↔ p = used) ∧
      rt.GetVMBinaryProtocolVersion used = Except.ok
        (CreateCustomSubnetConfig rt app subnetName genesisPath vmPath).1.2.1.RPCVersion := by
  obtain ⟨g, v, rpc, -, -, hv, hp, -, heq⟩ :=
    CreateCustomSubnetConfig_ok_inv rt app subnetName genesisPath vmPath h
  rw [heq]
  refine ⟨rfl, rfl, rfl, rfl, rfl, v, (usedPath_iff _ _ _ _).2 hv, ?_, hp⟩
  intro p
  simp [mem_askedFor_iff]

/-- C1 at a concrete call: no VM path given, the prompt answers `/tmp/myvm`,
whose protocol version is 26. -/
theorem CreateCustomSubnetConfig_sidecar_witness :
    (CreateCustomSubnetConfig demoRuntime demoApp "sub1" "/tmp/genesis.json" "").1.2.2 = none ∧
    (CreateCustomSubnetConfig demoRuntime demoApp "sub1" "/tmp/genesis.json" "").1.2.1 =
      { Name := "sub1", VM := "Custom", VMVersion := "", RPCVersion := 26, Subnet := "sub1",
        TokenName := "" } ∧
    ∃ used,
      UsedPath demoApp "" "Enter path to vm binary" used ∧
      (∀ p, Event.GetVMBinaryProtocolVersion p ∈
          (CreateCustomSubnetConfig demoRuntime demoApp "sub1" "/tmp/genesis.json" "").2 ↔
          p = used) ∧
      demoRuntime.GetVMBinaryProtocolVersion used = Except.ok
        (CreateCustomSubnetConfig demoRuntime demoApp "sub1" "/tmp/genesis.json" "").1.2.1.RPCVersion :=
  ⟨by decide, by decide,
    (CreateCustomSubnetConfig_sidecar demoRuntime demoApp "sub1" "/tmp/genesis.json" ""
      (by decide)).2.2.2.2.2⟩

/-- C6: when the call of `GetVMBinaryProtocolVersion` on the VM binary fails
with `e`, `CreateCustomSubnetConfig` returns a non-nil error whose message
begins with "unable to get RPC version" and which unwraps to `e`, and
`app.CopyVMBinary` is not called. -/
theorem CreateCustomSubnetConfig_rpc_failure (rt : Runtime) (app : Avalanche)
    (subnetName genesisPath vmPath p : String) (e : ExtError)
    (hcall : Event.GetVMBinaryProtocolVersion p ∈
      (CreateCustomSubnetConfig rt app subnetName genesisPath vmPath).2)
    (hfail : rt.GetVMBinaryProtocolVersion p = Except.error e) :
    ∃ err,
      (CreateCustomSubnetConfig rt app subnetName genesisPath vmPath).1.2.2 = some err ∧
      err = GoError.errorf "unable to get RPC version: " (GoError.ext e) ∧
      "unable to get RPC version".data <+: err.Error.data ∧
      errorsUnwrap err = some (GoError.ext e) ∧
      ∀ a b, Event.CopyVMBinary a b ∉
        (CreateCustomSubnetConfig rt app subnetName genesisPath vmPath).2 := by
  rw [CreateCustomSubnetConfig_eq_steps] at hcall ⊢
  unfold createCustomSteps at hcall ⊢
  have hpre : "unable to get RPC version".data <+:
      (GoError.errorf "unable to get RPC version: " (GoError.ext e)).Error.data :=
    ⟨": ".data ++ e.text.data, by simp [GoError.Error, String.data_append]⟩
  cases hg : resolvePath app genesisPath "Enter path to custom genesis" with
  | error e1 => simp [hg, mem_askedFor_iff] at hcall
  | ok g =>
    cases hr : (rt.ReadFile g).2 with
    | some e1 => simp [hg, hr, mem_askedFor_iff] at hcall
    | none =>
      cases hv : resolvePath app vmPath "Enter path to vm binary" with
      | error e1 => simp [hg, hr, hv, mem_askedFor_iff] at hcall
      | ok v =>
        have hpv : p = v := by
          cases hp : rt.GetVMBinaryProtocolVersion v <;>
            simpa [hg, hr, hv, hp, mem_askedFor_iff] using hcall
        subst hpv
        simp only [hg, hr, hv, hfail]
        exact ⟨_, rfl, rfl, hpre, rfl, by simp [mem_askedFor_iff]⟩

/-- C6 at a concrete call: the binary `/tmp/broken` cannot report a version. -/
theorem CreateCustomSubnetConfig_rpc_failure_witness :
    Event.GetVMBinaryProtocolVersion "/tmp/broken" ∈
      (CreateCustomSubnetConfig demoRuntime demoApp "sub1" "/tmp/genesis.json" "/tmp/broken").2 ∧
    ∃ err,
      (CreateCustomSubnetConfig demoRuntime demoApp "sub1" "/tmp/genesis.json"
        "/tmp/broken").1.2.2 = some err ∧
      err = GoError.errorf "unable to get RPC version: "
        (GoError.ext { text := "fork/exec: exec format error", notExist := false }) ∧
      "unable to get RPC version".data <+: err.Error.data ∧
      errorsUnwrap err =
        some (GoError.ext { text := "fork/exec: exec format error", notExist := false }) ∧
      ∀ a b, Event.CopyVMBinary a b ∉
        (CreateCustomSubnetConfig demoRuntime demoApp "sub1" "/tmp/genesis.json" "/tmp/broken").2 :=
  ⟨by decide,
    CreateCustomSubnetConfig_rpc_failure demoRuntime demoApp "sub1" "/tmp/genesis.json"
      "/tmp/broken" "/tmp/broken" { text := "fork/exec: exec format error", notExist := false }
      (by decide) rfl⟩

/-- C7: whenever `CreateCustomSubnetConfig` returns a nil error, the returned
genesis bytes are exactly what `os.ReadFile` returned for the genesis path
that was used (the given one, or the prompted one when none was given), which
is the only file read.  The bytes are an opaque blob: with any other content
in the files, the calls made, the Sidecar and the error stay the same and the
new content of that file is what is returned. -/
theorem CreateCustomSubnetConfig_genesis_bytes (rt : Runtime) (app : Avalanche)
    (subnetName genesisPath vmPath : String)
    (h : (CreateCustomSubnetConfig rt app subnetName genesisPath vmPath).1.2.2 = none) :
    ∃ used,
      UsedPath app genesisPath "Enter path to custom genesis" used ∧
      (∀ p, Event.ReadFile p ∈
          (CreateCustomSubnetConfig rt app subnetName genesisPath vmPath).2 ↔ p = used) ∧
      rt.ReadFile used =
        ((CreateCustomSubnetConfig rt app subnetName genesisPath vmPath).1.1, none) ∧
      ∀ content : String → Option Bytes,
        CreateCustomSubnetConfig
            { rt with ReadFile := fun name => (content name, (rt.ReadFile name).2) }
            app subnetName genesisPath vmPath =
          ((content used, (CreateCustomSubnetConfig rt app subnetName genesisPath vmPath).1.2),
            (CreateCustomSubnetConfig rt app subnetName genesisPath vmPath).2) := by
  obtain ⟨g, v, rpc, hg, hr, hv, hp, hc, heq⟩ :=
    CreateCustomSubnetConfig_ok_inv rt app subnetName genesisPath vmPath h
  refine ⟨g, (usedPath_iff _ _ _ _).2 hg, ?_, ?_, ?_⟩
  · intro p
    rw [heq]
    simp [mem_askedFor_iff]
  · rw [heq]
    exact Prod.ext rfl hr
  · intro content
    rw [heq, CreateCustomSubnetConfig_eq_steps]
    unfold createCustomSteps
    simp [hg, hr, hv, hp, hc]

/-- C7 at a concrete call: no genesis path given, the prompt answers
`/tmp/genesis.json`, whose two bytes are returned. -/
theorem CreateCustomSubnetConfig_genesis_bytes_witness :
    (CreateCustomSubnetConfig demoRuntime demoApp "sub1" "" "/tmp/myvm").1.2.2 = none ∧
    (CreateCustomSubnetConfig demoRuntime demoApp "sub1" "" "/tmp/myvm").1.1 = some [123, 125] ∧
    ∃ used,
      UsedPath demoApp "" "Enter path to custom genesis" used ∧
      (∀ p, Event.ReadFile p ∈
          (CreateCustomSubnetConfig demoRuntime demoApp "sub1" "" "/tmp/myvm").2 ↔ p = used) ∧
      demoRuntime.ReadFile used =
        ((CreateCustomSubnetConfig demoRuntime demoApp "sub1" "" "/tmp/myvm").1.1, none) ∧
      ∀ content : String → Option Bytes,
        CreateCustomSubnetConfig
            { demoRuntime with
              ReadFile := fun name => (content name, (demoRuntime.ReadFile name).2) }
            demoApp "sub1" "" "/tmp/myvm" =
          ((content used,
              (CreateCustomSubnetConfig demoRuntime demoApp "sub1" "" "/tmp/myvm").1.2),
            (CreateCustomSubnetConfig demoRuntime demoApp "sub1" "" "/tmp/myvm").2) :=
  ⟨by decide, by decide,
    CreateCustomSubnetConfig_genesis_bytes demoRuntime demoApp "sub1" "" "/tmp/myvm"
      (by decide)⟩

/-- C8: `CreateCustomSubnetConfig` returns a nil error only if
`app.CopyVMBinary` was called, exactly once, with the VM path whose protocol
version was extracted and with the name of the subnet, and that copy
succeeded. -/
theorem CreateCustomSubnetConfig_copies_vm (rt : Runtime) (app : Avalanche)
    (subnetName genesisPath vmPath : String)
    (h : (CreateCustomSubnetConfig rt app subnetName genesisPath vmPath).1.2.2 = none) :
    ∃ used rpc,
      UsedPath app vmPath "Enter path to vm binary" used ∧
      rt.GetVMBinaryProtocolVersion used = Except.ok rpc ∧
      Event.GetVMBinaryProtocolVersion used ∈
        (CreateCustomSubnetConfig rt app subnetName genesisPath vmPath).2 ∧
      (∀ a b, Event.CopyVMBinary a b ∈
          (CreateCustomSubnetConfig rt app subnetName genesisPath vmPath).2 ↔
          a = used ∧ b = subnetName) ∧
      ((CreateCustomSubnetConfig rt app subnetName genesisPath vmPath).2.filter
          (fun ev => decide (ev = Event.CopyVMBinary used subnetName))).length = 1 ∧
      app.CopyVMBinary used subnetName = none := by
  obtain ⟨g, v, rpc, -, -, hv, hp, hc, heq⟩ :=
    CreateCustomSubnetConfig_ok_inv rt app subnetName genesisPath vmPath h
  rw [heq]
  refine ⟨v, rpc, (usedPath_iff _ _ _ _).2 hv, hp, by simp, ?_, ?_, hc⟩
  · intro a b
    simp [mem_askedFor_iff]
  · unfold askedFor
    by_cases h1 : genesisPath = "" <;> by_cases h2 : vmPath = "" <;>
      simp [h1, h2, List.filter_cons]

/-- C8 at a concrete call: the binary `/tmp/myvm` is copied under `sub1`. -/
theorem CreateCustomSubnetConfig_copies_vm_witness :
    (CreateCustomSubnetConfig demoRuntime demoApp "sub1" "/tmp/genesis.json" "/tmp/myvm").1.2.2 =
      none ∧
    Event.CopyVMBinary "/tmp/myvm" "sub1" ∈
      (CreateCustomSubnetConfig demoRuntime demoApp "sub1" "/tmp/genesis.json" "/tmp/myvm").2 ∧
    ∃ used rpc,
      UsedPath demoApp "/tmp/myvm" "Enter path to vm binary" used ∧
      demoRuntime.GetVMBinaryProtocolVersion used = Except.ok rpc ∧
      Event.GetVMBinaryProtocolVersion used ∈
        (CreateCustomSubnetConfig demoRuntime demoApp "sub1" "/tmp/genesis.json" "/tmp/myvm").2 ∧
      (∀ a b, Event.CopyVMBinary a b ∈
          (CreateCustomSubnetConfig demoRuntime demoApp "sub1" "/tmp/genesis.json" "/tmp/myvm").2 ↔
          a = used ∧ b = "sub1") ∧
      ((CreateCustomSubnetConfig demoRuntime demoApp "sub1" "/tmp/genesis.json" "/tmp/myvm").2.filter
          (fun ev => decide (ev = Event.CopyVMBinary used "sub1"))).length = 1 ∧
      demoApp.CopyVMBinary used "sub1" = none :=
  ⟨by decide, by decide,
    CreateCustomSubnetConfig_copies_vm demoRuntime demoApp "sub1" "/tmp/genesis.json" "/tmp/myvm"
      (by decide)⟩

/-! ## Theorems: cmd/keycmd/delete.go -/

/-- C2: when `os.Stat` of `app.GetKeyPath(keyName)` fails, `deleteKey` returns
the error "key does not exist" whether or not the force flag is set; the
`os.Stat` call is the only call it makes, so the confirmation prompt is not
consulted and no file is removed. -/
theorem deleteKey_absent (rt : Runtime) (app : Avalanche) (forceDelete : Bool)
    (keyName : String) (e : ExtError)
    (h : rt.Stat (app.GetKeyPath keyName) = Except.error e) :
    deleteKey rt app forceDelete keyName =
      (some (GoError.errorsNew "key does not exist"), [Event.Stat (app.GetKeyPath keyName)]) ∧
    (∀ s, Event.CaptureNoYes s ∉ (deleteKey rt app forceDelete keyName).2) ∧
    (∀ p, Event.Remove p ∉ (deleteKey rt app forceDelete keyName).2) := by
  have heq : deleteKey rt app forceDelete keyName =
      (some (GoError.errorsNew "key does not exist"), [Event.Stat (app.GetKeyPath keyName)]) := by
    unfold deleteKey
    simp [h]
  rw [heq]
  simp

/-- C2 at a concrete call: the machine has no key file for `bob`, and the
force flag is set. -/
theorem deleteKey_absent_witness :
    demoRuntime.Stat (demoApp.GetKeyPath "bob") =
      Except.error { text := "stat: no such file or directory", notExist := true } ∧
    deleteKey demoRuntime demoApp true "bob" =
      (some (GoError.errorsNew "key does not exist"),
        [Event.Stat "/home/u/.avalanche-cli/key/bob.pk"]) ∧
    (∀ s, Event.CaptureNoYes s ∉ (deleteKey demoRuntime demoApp true "bob").2) ∧
    (∀ p, Event.Remove p ∉ (deleteKey demoRuntime demoApp true "bob").2) :=
  ⟨rfl, deleteKey_absent demoRuntime demoApp true "bob"
    { text := "stat: no such file or directory", notExist := true } rfl⟩

/-- C3: when the key file exists (`os.Stat` succeeds), `deleteKey` consults the
confirmation prompt if and only if the force flag is unset; it calls
`os.Remove` on the key path if and only if the force flag is set or the prompt
answered yes without error, and its result is then the outcome of that
removal; when the prompt answers no it returns nil and removes nothing; when
the prompt fails it returns the error of the prompt and removes nothing. -/
theorem deleteKey_present (rt : Runtime) (app : Avalanche) (forceDelete : Bool)
    (keyName : String) (info : FileInfo)
    (h : rt.Stat (app.GetKeyPath keyName) = Except.ok info) :
    ((∃ s, Event.CaptureNoYes s ∈ (deleteKey rt app forceDelete keyName).2) ↔
      forceDelete = false) ∧
    (∀ s, Event.CaptureNoYes s ∈ (deleteKey rt app forceDelete keyName).2 →
      s = deletePrompt keyName) ∧
    ((∃ p, Event.Remove p ∈ (deleteKey rt app forceDelete keyName).2) ↔
      (forceDelete = true ∨
        app.Prompt.CaptureNoYes (deletePrompt keyName) = Except.ok true)) ∧
    (∀ p, Event.Remove p ∈ (deleteKey rt app forceDelete keyName).2 →
      p = app.GetKeyPath keyName ∧
      (deleteKey rt app forceDelete keyName).1 =
        (rt.Remove (app.GetKeyPath keyName)).map GoError.ext) ∧
    (forceDelete = false →
      app.Prompt.CaptureNoYes (deletePrompt keyName) = Except.ok false →
      (deleteKey rt app forceDelete keyName).1 = none ∧
      ∀ p, Event.Remove p ∉ (deleteKey rt app forceDelete keyName).2) ∧
    (∀ e, forceDelete = false →
      app.Prompt.CaptureNoYes (deletePrompt keyName) = Except.error e →
      (deleteKey rt app forceDelete keyName).1 = some (GoError.ext e) ∧
      ∀ p, Event.Remove p ∉ (deleteKey rt app forceDelete keyName).2) := by
  unfold deleteKey deletePrompt
  cases forceDelete
  · cases hp : app.Prompt.CaptureNoYes ("Are you sure you want to delete " ++ keyName ++ "?") with
    | error e1 => simp [h, hp]
    | ok conf =>
      cases conf
      · simp [h, hp]
      · cases hr : rt.Remove (app.GetKeyPath keyName) <;> simp [h, hp, hr]
  · cases hr : rt.Remove (app.GetKeyPath keyName) <;> simp [h, hr]

/-- C3 at a concrete call: the key file of `alice` exists, the force flag is
unset and the prompt answers no. -/
theorem deleteKey_present_witness :
    demoRuntime.Stat (demoApp.GetKeyPath "alice") = Except.ok { IsDir := false } ∧
    deleteKey demoRuntime demoApp false "alice" =
      (none,
        [Event.Stat "/home/u/.avalanche-cli/key/alice.pk",
          Event.CaptureNoYes "Are you sure you want to delete alice?",
          Event.PrintToUser "Delete cancelled"]) ∧
    ((∃ s, Event.CaptureNoYes s ∈ (deleteKey demoRuntime demoApp false "alice").2) ↔
      false = false) ∧
    ((∃ p, Event.Remove p ∈ (deleteKey demoRuntime demoApp false "alice").2) ↔
      (false = true ∨
        demoApp.Prompt.CaptureNoYes (deletePrompt "alice") = Except.ok true)) :=
  ⟨rfl, by decide,
    (deleteKey_present demoRuntime demoApp false "alice" { IsDir := false } rfl).1,
    (deleteKey_present demoRuntime demoApp false "alice" { IsDir := false } rfl).2.2.1⟩

/-! ## Theorems: cmd/keycmd/create.go -/

/-- C4: `createKey` returns the error "key already exists. Use --force
parameter to overwrite" if and only if `app.KeyExists(keyName)` is true and the
force flag is unset; in that case the existence check is the only call made:
no key is generated, no key file is saved or copied.  With the force flag set
the error is not returned, whether or not the key exists, and the create
proceeds to generate or import the key. -/
theorem createKey_exists_guard (rt : Runtime) (app : Avalanche) (forceCreate : Bool)
    (filename keyName : String) :
    ((createKey rt app forceCreate filename keyName).1 = some keyExistsError ↔
      (app.KeyExists keyName = true ∧ forceCreate = false)) ∧
    ((app.KeyExists keyName = true ∧ forceCreate = false) →
      (createKey rt app forceCreate filename keyName).2 = [Event.KeyExists keyName] ∧
      (∀ n, Event.NewSoft n ∉ (createKey rt app forceCreate filename keyName).2) ∧
      (∀ k q, Event.Save k q ∉ (createKey rt app forceCreate filename keyName).2) ∧
      (∀ a b, Event.CopyKeyFile a b ∉ (createKey rt app forceCreate filename keyName).2)) ∧
    (forceCreate = true →
      (createKey rt app forceCreate filename keyName).1 ≠ some keyExistsError ∧
      (filename = "" → Event.NewSoft 0 ∈ (createKey rt app forceCreate filename keyName).2) ∧
      (filename ≠ "" →
        Event.CopyKeyFile filename keyName ∈
          (createKey rt app forceCreate filename keyName).2)) := by
  have hmsg : GoError.errorsNew ("key already exists. Use --" ++ forceFlag ++ " parameter to overwrite")
      = keyExistsError := by decide
  unfold createKey
  rw [hmsg]
  by_cases hf : filename = ""
  · cases forceCreate <;> cases hk : app.KeyExists keyName <;>
      cases hn : rt.NewSoft 0 with
      | error e => simp [hf, hk, hn, keyExistsError]
      | ok k =>
        cases hs : rt.Save k (app.GetKeyPath keyName) <;>
          cases hq : rt.printAddresses [app.GetKeyPath keyName] <;>
          simp [hf, hk, hn, hs, hq, keyExistsError]
  · cases forceCreate <;> cases hk : app.KeyExists keyName <;>
      cases hc : app.CopyKeyFile filename keyName <;>
      simp [hf, hk, hc, keyExistsError]

/-- C4 at concrete calls: the key `alice` exists; without the force flag the
create is refused after the existence check, with it a key is generated. -/
theorem createKey_exists_guard_witness :
    createKey demoRuntime demoApp false "" "alice" =
      (some (GoError.errorsNew "key already exists. Use --force parameter to overwrite"),
        [Event.KeyExists "alice"]) ∧
    createKey demoRuntime demoApp true "" "alice" =
      (none,
        [Event.KeyExists "alice", Event.PrintToUser "Generating new key...", Event.NewSoft 0,
          Event.Save { privKeyRaw := [1, 2, 3] } "/home/u/.avalanche-cli/key/alice.pk",
          Event.PrintToUser "Key created",
          Event.printAddresses ["/home/u/.avalanche-cli/key/alice.pk"]]) ∧
    ((createKey demoRuntime demoApp false "" "alice").1 = some keyExistsError ↔
      (demoApp.KeyExists "alice" = true ∧ false = false)) :=
  ⟨by decide, by decide, (createKey_exists_guard demoRuntime demoApp false "" "alice").1⟩

/-- C5: once `createKey` passes its existence guard, exactly one key source is
used.  With an empty `--file` argument a key is generated, it is saved at
`app.GetKeyPath(keyName)` when the generation succeeded, and no file is copied;
the result is nil exactly when generation, saving and address printing all
succeeded, and otherwise the error of the first of them that failed.  With a
non-empty `--file` argument the file is imported by
`app.CopyKeyFile(filename, keyName)`, no key is generated or saved, and the
result is the outcome of that copy. -/
theorem createKey_sources (rt : Runtime) (app : Avalanche) (forceCreate : Bool)
    (filename keyName : String)
    (hguard : ¬ (app.KeyExists keyName = true ∧ forceCreate = false)) :
    (filename = "" →
      Event.NewSoft 0 ∈ (createKey rt app forceCreate filename keyName).2 ∧
      (∀ a b, Event.CopyKeyFile a b ∉ (createKey rt app forceCreate filename keyName).2) ∧
      (∀ k q, Event.Save k q ∈ (createKey rt app forceCreate filename keyName).2 ↔
        (rt.NewSoft 0 = Except.ok k ∧ q = app.GetKeyPath keyName)) ∧
      ((createKey rt app forceCreate filename keyName).1 = none ↔
        ∃ k, rt.NewSoft 0 = Except.ok k ∧ rt.Save k (app.GetKeyPath keyName) = none ∧
          rt.printAddresses [app.GetKeyPath keyName] = none) ∧
      (∀ e, rt.NewSoft 0 = Except.error e →
        (createKey rt app forceCreate filename keyName).1 = some (GoError.ext e)) ∧
      (∀ k e, rt.NewSoft 0 = Except.ok k → rt.Save k (app.GetKeyPath keyName) = some e →
        (createKey rt app forceCreate filename keyName).1 = some (GoError.ext e)) ∧
      (∀ k e, rt.NewSoft 0 = Except.ok k → rt.Save k (app.GetKeyPath keyName) = none →
        rt.printAddresses [app.GetKeyPath keyName] = some e →
        (createKey rt app forceCreate filename keyName).1 = some (GoError.ext e))) ∧
    (filename ≠ "" →
      (∀ a b, Event.CopyKeyFile a b ∈ (createKey rt app forceCreate filename keyName).2 ↔
        (a = filename ∧ b = keyName)) ∧
      (∀ n, Event.NewSoft n ∉ (createKey rt app forceCreate filename keyName).2) ∧
      (∀ k q, Event.Save k q ∉ (createKey rt app forceCreate filename keyName).2) ∧
      (createKey rt app forceCreate filename keyName).1 =
        (app.CopyKeyFile filename keyName).map GoError.ext) := by
  have hcond : (app.KeyExists keyName && !forceCreate) = false := by
    cases hk : app.KeyExists keyName <;> cases hfc : forceCreate <;> simp_all
  unfold createKey
  by_cases hf : filename = ""
  · cases hn : rt.NewSoft 0 with
    | error e => simp [hcond, hf, hn]
    | ok k =>
      cases hs : rt.Save k (app.GetKeyPath keyName) <;>
        cases hq : rt.printAddresses [app.GetKeyPath keyName] <;>
        simp [hcond, hf, hn, hs, hq] <;>
        (refine ⟨fun _ => eq_comm, ?_⟩; rintro k1 e rfl; simp [hs])
  · cases hc : app.CopyKeyFile filename keyName <;> simp [hcond, hf, hc]

/-- C5 at a concrete call: a key `carol` that does not exist yet is imported
from the file `/tmp/carol.pk`. -/
theorem createKey_sources_witness :
    ¬ (demoApp.KeyExists "carol" = true ∧ false = false) ∧
    createKey demoRuntime demoApp false "/tmp/carol.pk" "carol" =
      (none,
        [Event.KeyExists "carol", Event.PrintToUser "Loading user key...",
          Event.CopyKeyFile "/tmp/carol.pk" "carol", Event.PrintToUser "Key loaded"]) ∧
    (createKey demoRuntime demoApp false "/tmp/carol.pk" "carol").1 =
      (demoApp.CopyKeyFile "/tmp/carol.pk" "carol").map GoError.ext :=
  ⟨by decide, by decide,
    ((createKey_sources demoRuntime demoApp false "/tmp/carol.pk" "carol" (by decide)).2
      (by decide)).2.2.2⟩

/-! ## Theorems: pkg/utils/file.go -/

/-- C9 does not hold of the code on every path: nothing exists at
`/etc/passwd/x`, a path below a regular file, and `FileExists` does not return
false there; `os.Stat` fails with an error that is not a not-exist error,
`info` is nil and `info.IsDir()` dereferences it.  Wherever `os.Stat` succeeds
or reports not-exist the code does what the sentence says: true if and only
if the entry found is not a directory, false when nothing exists, false for a
directory. -/
theorem FileExists_below_a_file :
    belowFileRuntime.Stat "/etc/passwd" = Except.ok { IsDir := false } ∧
    belowFileRuntime.Stat "/etc/passwd/x" =
      Except.error { text := "stat /etc/passwd/x: not a directory", notExist := false } ∧
    FileExists belowFileRuntime "/etc/passwd/x" = none ∧
    FileExists belowFileRuntime "/etc/passwd/x" ≠ some false ∧
    (∀ (rt : Runtime) (filename : String),
      (FileExists rt filename = some true ↔
        ∃ info, rt.Stat filename = Except.ok info ∧ info.IsDir = false) ∧
      (∀ e, rt.Stat filename = Except.error e → e.notExist = true →
        FileExists rt filename = some false) ∧
      (∀ info, rt.Stat filename = Except.ok info → info.IsDir = true →
        FileExists rt filename = some false)) := by
  refine ⟨rfl, rfl, by decide, by decide, ?_⟩
  intro rt filename
  unfold FileExists
  cases h : rt.Stat filename with
  | error e =>
    cases hn : e.notExist <;> simp [osIsNotExist, hn]
  | ok info =>
    cases info with
    | mk d => cases d <;> simp [osIsNotExist]

/-- C10, as stated, fails on three machines: with `$HOME` unset there is no
home directory and the result is the relative join of the elements; with
elements that climb through `..` the result lies outside the home directory;
with a relative `$HOME` the result is not absolute. -/
theorem UserHomePath_counterexample :
    (UserHomePath noHomeRuntime [".avalanche-cli", "key"] = ".avalanche-cli/key" ∧
      ¬ UserHomePathContract noHomeRuntime [".avalanche-cli", "key"]) ∧
    (UserHomePath demoRuntime ["..", "v"] = "/home/v" ∧
      ¬ UserHomePathContract demoRuntime ["..", "v"]) ∧
    (UserHomePath relHomeRuntime ["key"] = "work/home/key" ∧
      ¬ UserHomePathContract relHomeRuntime ["key"]) := by
  refine ⟨⟨by decide, ?_⟩, ⟨by decide, ?_⟩, ⟨by decide, ?_⟩⟩
  · rintro ⟨home, hhome, -⟩
    cases hhome
  · rintro ⟨home, hhome, -, -, hin⟩
    cases hhome
    revert hin
    decide
  · rintro ⟨home, hhome, -, habs, -⟩
    revert habs
    decide

/-- C10, amended: when `os.UserHomeDir` succeeds with `home`, `UserHomePath`
returns `filepath.Join(home, elements...)`; if `home` is absolute this is an
absolute path, and it lies inside the home directory provided no element has
a `..` component.  When `os.UserHomeDir` fails, `UserHomePath` returns
`filepath.Join(elements...)`. -/
theorem UserHomePath_spec (rt : Runtime) (filePath : List String) :
    (∀ home, rt.UserHomeDir = Except.ok home →
      UserHomePath rt filePath = filepathJoin (home :: filePath) ∧
      (filepathIsAbs home = true →
        filepathIsAbs (UserHomePath rt filePath) = true ∧
        ((∀ e ∈ filePath, ['.', '.'] ∉ splitSep e.data) →
          pathInside (filepathJoin [home]) (UserHomePath rt filePath)))) ∧
    (∀ e, rt.UserHomeDir = Except.error e →
      UserHomePath rt filePath = filepathJoin filePath) := by
  constructor
  · intro home hhome
    have heq : UserHomePath rt filePath = filepathJoin (home :: filePath) := by
      unfold UserHomePath
      simp [hhome]
    rw [heq]
    refine ⟨rfl, fun habs => ⟨?_, fun hdots => filepathJoin_inside home filePath habs hdots⟩⟩
    obtain ⟨t, ht⟩ := (filepathIsAbs_iff home).1 habs
    exact (filepathIsAbs_iff _).2 ⟨_, filepathJoin_rooted home t filePath ht⟩
  · intro e he
    unfold UserHomePath
    simp [he]

/-- C10, amended, on the demo machine: the key directory below `/home/u`. -/
theorem UserHomePath_spec_witness :
    UserHomePath demoRuntime [".avalanche-cli", "key"] = "/home/u/.avalanche-cli/key" ∧
    filepathIsAbs (UserHomePath demoRuntime [".avalanche-cli", "key"]) = true ∧
    pathInside (filepathJoin ["/home/u"]) (UserHomePath demoRuntime [".avalanche-cli", "key"]) ∧
    UserHomePath noHomeRuntime [".avalanche-cli", "key"] =
      filepathJoin [".avalanche-cli", "key"] :=
  ⟨by decide,
    (((UserHomePath_spec demoRuntime [".avalanche-cli", "key"]).1 "/home/u" rfl).2
      (by decide)).1,
    (((UserHomePath_spec demoRuntime [".avalanche-cli", "key"]).1 "/home/u" rfl).2
      (by decide)).2 (by decide),
    (UserHomePath_spec noHomeRuntime [".avalanche-cli", "key"]).2
      { text := "$HOME is not defined", notExist := false } rfl⟩

/-! ## Theorems: pkg/vm/createCustom.go, error paths and prompting -/

/-- C14: when the prompt for the genesis path fails, or `os.ReadFile` fails on
the genesis path used (the given one, or the prompted one), with error `e`,
then `loadCustomGenesis` returns `e` as its error and
`CreateCustomSubnetConfig` returns that same error unchanged, with nil bytes
(never an empty genesis) and the empty Sidecar.  It returns right after the
failed step, before any VM step: the VM path is not prompted for, no protocol
version is extracted and no binary is copied. -/
theorem CreateCustomSubnetConfig_genesis_failure (rt : Runtime) (app : Avalanche)
    (subnetName genesisPath vmPath : String) (e : ExtError)
    (hfail :
      (genesisPath = "" ∧
        app.Prompt.CaptureExistingFilepath "Enter path to custom genesis" = Except.error e) ∨
      (∃ used, UsedPath app genesisPath "Enter path to custom genesis" used ∧
        (rt.ReadFile used).2 = some e)) :
    (loadCustomGenesis rt app genesisPath).1.2 = some (GoError.ext e) ∧
    (CreateCustomSubnetConfig rt app subnetName genesisPath vmPath).1 =
      (none, Sidecar.empty, some (GoError.ext e)) ∧
    ((genesisPath = "" ∧
        app.Prompt.CaptureExistingFilepath "Enter path to custom genesis" = Except.error e ∧
        (CreateCustomSubnetConfig rt app subnetName genesisPath vmPath).2 =
          [Event.PrintToUser ("creating custom VM subnet " ++ subnetName),
            Event.CaptureExistingFilepath "Enter path to custom genesis"]) ∨
      (∃ used, UsedPath app genesisPath "Enter path to custom genesis" used ∧
        (rt.ReadFile used).2 = some e ∧
        (CreateCustomSubnetConfig rt app subnetName genesisPath vmPath).2 =
          [Event.PrintToUser ("creating custom VM subnet " ++ subnetName)]
            ++ askedFor genesisPath "Enter path to custom genesis"
            ++ [Event.ReadFile used])) ∧
    (∀ ev ∈ (CreateCustomSubnetConfig rt app subnetName genesisPath vmPath).2,
      ev.isVMStep = false) := by
  rw [CreateCustomSubnetConfig_eq_steps, loadCustomGenesis_eq]
  unfold createCustomSteps
  rcases hfail with ⟨hg, hp⟩ | ⟨used, hused, hread⟩
  · have hres : resolvePath app genesisPath "Enter path to custom genesis" = Except.error e := by
      unfold resolvePath
      simp [hg, hp]
    simp only [hres]
    refine ⟨trivial, trivial, Or.inl ⟨hg, hp, by simp [askedFor, hg]⟩, ?_⟩
    intro ev hev
    simp only [List.mem_append, List.mem_singleton, mem_askedFor_iff] at hev
    rcases hev with rfl | ⟨-, rfl⟩
    · rfl
    · decide
  · have hres : resolvePath app genesisPath "Enter path to custom genesis" = Except.ok used :=
      (usedPath_iff _ _ _ _).1 hused
    simp only [hres, hread]
    refine ⟨rfl, trivial, Or.inr ⟨used, hused, hread, rfl⟩, ?_⟩
    intro ev hev
    simp only [List.mem_append, List.mem_singleton, mem_askedFor_iff] at hev
    rcases hev with (rfl | ⟨-, rfl⟩) | rfl
    · rfl
    · decide
    · rfl

/-- C14 at two concrete calls: the genesis file `/tmp/absent.json` cannot be
read; and, on a machine whose prompt is closed, no genesis path is given. -/
theorem CreateCustomSubnetConfig_genesis_failure_witness :
    (UsedPath demoApp "/tmp/absent.json" "Enter path to custom genesis" "/tmp/absent.json" ∧
      (demoRuntime.ReadFile "/tmp/absent.json").2 =
        some { text := "open: no such file or directory", notExist := true }) ∧
    CreateCustomSubnetConfig demoRuntime demoApp "sub1" "/tmp/absent.json" "" =
      ((none, Sidecar.empty,
          some (GoError.ext { text := "open: no such file or directory", notExist := true })),
        [Event.PrintToUser "creating custom VM subnet sub1", Event.ReadFile "/tmp/absent.json"]) ∧
    (CreateCustomSubnetConfig demoRuntime demoApp "sub1" "/tmp/absent.json" "").1 =
      (none, Sidecar.empty,
        some (GoError.ext { text := "open: no such file or directory", notExist := true })) ∧
    (CreateCustomSubnetConfig demoRuntime closedPromptApp "sub1" "" "").1 =
      (none, Sidecar.empty, some (GoError.ext { text := "prompt: EOF", notExist := false })) :=
  ⟨⟨by simp [UsedPath], by decide⟩, by decide,
    (CreateCustomSubnetConfig_genesis_failure demoRuntime demoApp "sub1" "/tmp/absent.json" ""
      { text := "open: no such file or directory", notExist := true }
      (Or.inr ⟨"/tmp/absent.json", by simp [UsedPath], by decide⟩)).2.1,
    (CreateCustomSubnetConfig_genesis_failure demoRuntime closedPromptApp "sub1" "" ""
      { text := "prompt: EOF", notExist := false } (Or.inl ⟨rfl, rfl⟩)).2.1⟩

/-- C15: `CreateCustomSubnetConfig` asks for the genesis path if and only if
`genesisPath` is empty, and for the VM binary path if and only if `vmPath` is
empty and the genesis was loaded without error; these two questions are the
only uses of the prompt.  With both paths given the prompt is never consulted,
and in every call it is consulted at most twice. -/
theorem CreateCustomSubnetConfig_prompting (rt : Runtime) (app : Avalanche)
    (subnetName genesisPath vmPath : String) :
    (Event.CaptureExistingFilepath "Enter path to custom genesis" ∈
        (CreateCustomSubnetConfig rt app subnetName genesisPath vmPath).2 ↔
      genesisPath = "") ∧
    (Event.CaptureExistingFilepath "Enter path to vm binary" ∈
        (CreateCustomSubnetConfig rt app subnetName genesisPath vmPath).2 ↔
      (vmPath = "" ∧ (loadCustomGenesis rt app genesisPath).1.2 = none)) ∧
    (∀ ev ∈ (CreateCustomSubnetConfig rt app subnetName genesisPath vmPath).2,
      ev.isPrompt = true →
        (ev = Event.CaptureExistingFilepath "Enter path to custom genesis" ∨
          ev = Event.CaptureExistingFilepath "Enter path to vm binary")) ∧
    (genesisPath ≠ "" → vmPath ≠ "" →
      ∀ ev ∈ (CreateCustomSubnetConfig rt app subnetName genesisPath vmPath).2,
        ev.isPrompt = false) ∧
    ((CreateCustomSubnetConfig rt app subnetName genesisPath vmPath).2.filter
      Event.isPrompt).length ≤ 2 := by
  rw [CreateCustomSubnetConfig_eq_steps, loadCustomGenesis_eq]
  unfold createCustomSteps
  cases hg : resolvePath app genesisPath "Enter path to custom genesis" with
  | error e =>
    unfold askedFor
    by_cases h1 : genesisPath = "" <;>
      simp [hg, h1, Event.isPrompt, List.filter_cons]
  | ok g =>
    cases hr : (rt.ReadFile g).2 with
    | some e =>
      unfold askedFor
      by_cases h1 : genesisPath = "" <;>
        simp [hg, hr, h1, Event.isPrompt, List.filter_cons]
    | none =>
      cases hv : resolvePath app vmPath "Enter path to vm binary" with
      | error e =>
        unfold askedFor
        by_cases h1 : genesisPath = "" <;> by_cases h2 : vmPath = "" <;>
          simp [hg, hr, hv, h1, h2, Event.isPrompt, List.filter_cons]
      | ok v =>
        cases hp : rt.GetVMBinaryProtocolVersion v <;>
          unfold askedFor <;>
          by_cases h1 : genesisPath = "" <;> by_cases h2 : vmPath = "" <;>
          simp [hg, hr, hv, hp, h1, h2, Event.isPrompt, List.filter_cons]

/-- C15 at concrete calls: both paths given, no question; no path given, the
two questions in order. -/
theorem CreateCustomSubnetConfig_prompting_witness :
    (CreateCustomSubnetConfig demoRuntime demoApp "sub1" "/tmp/genesis.json" "/tmp/myvm").2 =
      [Event.PrintToUser "creating custom VM subnet sub1", Event.ReadFile "/tmp/genesis.json",
        Event.GetVMBinaryProtocolVersion "/tmp/myvm", Event.CopyVMBinary "/tmp/myvm" "sub1"] ∧
    (CreateCustomSubnetConfig demoRuntime demoApp "sub1" "" "").2 =
      [Event.PrintToUser "creating custom VM subnet sub1",
        Event.CaptureExistingFilepath "Enter path to custom genesis",
        Event.ReadFile "/tmp/genesis.json",
        Event.CaptureExistingFilepath "Enter path to vm binary",
        Event.GetVMBinaryProtocolVersion "/tmp/myvm", Event.CopyVMBinary "/tmp/myvm" "sub1"] ∧
    ((CreateCustomSubnetConfig demoRuntime demoApp "sub1" "" "").2.filter
      Event.isPrompt).length ≤ 2 :=
  ⟨by decide, by decide,
    (CreateCustomSubnetConfig_prompting demoRuntime demoApp "sub1" "" "").2.2.2.2⟩

/-- C16 does not hold of the code: when `os.Stat` fails with an error other
than not-exist (here: permission denied) no `FileInfo` is returned, and
`FileExists` goes on to call `info.IsDir()` on the nil `FileInfo` instead of
returning a boolean.  This happens for every such outcome of `os.Stat`. -/
theorem FileExists_nil_dereference :
    lockedRuntime.Stat "/home/u/.avalanche-cli/key/alice.pk" =
      Except.error { text := "stat: permission denied", notExist := false } ∧
    FileExists lockedRuntime "/home/u/.avalanche-cli/key/alice.pk" = none ∧
    (∀ (rt : Runtime) (filename : String) (e : ExtError),
      rt.Stat filename = Except.error e → e.notExist = false →
      FileExists rt filename = none) := by
  refine ⟨rfl, by decide, ?_⟩
  intro rt filename e h hn
  unfold FileExists
  simp [h, osIsNotExist, hn]

/-- C17 does not hold of the code: when the copy of the VM binary fails,
`CreateCustomSubnetConfig` returns the error of the copy together with the
genesis bytes it read and the Sidecar it filled in, not nil bytes and the
empty Sidecar.  On the three earlier error returns the bytes are nil and the
Sidecar is empty. -/
theorem CreateCustomSubnetConfig_copy_failure_result :
    CreateCustomSubnetConfig demoRuntime fullDiskApp "sub1" "/tmp/genesis.json" "/tmp/myvm" =
      ((some [123, 125],
          { Name := "sub1", VM := "Custom", VMVersion := "", RPCVersion := 26,
            Subnet := "sub1", TokenName := "" },
          some (GoError.ext { text := "write: no space left on device", notExist := false })),
        [Event.PrintToUser "creating custom VM subnet sub1", Event.ReadFile "/tmp/genesis.json",
          Event.GetVMBinaryProtocolVersion "/tmp/myvm", Event.CopyVMBinary "/tmp/myvm" "sub1"]) ∧
    (∀ (rt : Runtime) (app : Avalanche) (subnetName genesisPath vmPath : String),
      (CreateCustomSubnetConfig rt app subnetName genesisPath vmPath).1.2.2 ≠ none →
      (∀ a b, Event.CopyVMBinary a b ∉
        (CreateCustomSubnetConfig rt app subnetName genesisPath vmPath).2) →
      (CreateCustomSubnetConfig rt app subnetName genesisPath vmPath).1.1 = none ∧
      (CreateCustomSubnetConfig rt app subnetName genesisPath vmPath).1.2.1 = Sidecar.empty) := by
  refine ⟨by decide, ?_⟩
  intro rt app subnetName genesisPath vmPath
  rw [CreateCustomSubnetConfig_eq_steps]
  unfold createCustomSteps
  cases hg : resolvePath app genesisPath "Enter path to custom genesis" with
  | error e => simp [hg]
  | ok g =>
    cases hr : (rt.ReadFile g).2 with
    | some e => simp [hg, hr]
    | none =>
      cases hv : resolvePath app vmPath "Enter path to vm binary" with
      | error e => simp [hg, hr, hv]
      | ok v =>
        cases hp : rt.GetVMBinaryProtocolVersion v with
        | error e => simp [hg, hr, hv, hp]
        | ok rpc =>
          intro _ hcopy
          exact absurd (by simp [hg, hr, hv, hp]) (hcopy v subnetName)

/-! ## Theorems: tests/e2e/commands/subnet.go -/

/-- C19: for a subnet whose config exists, `SimulateFujiTransformSubnet` sets
the simulate-public-network variable to "true", then runs the command (which
sees the variable set), and unsets the variable as its last call, whichever
way the command ends; no other call touches the environment, and every other
variable is as before.  The helper returns the empty output with the error of
the command if and only if the command failed, and the combined output of the
command with a nil error otherwise.  The variable name must be one
`os.Setenv` accepts. -/
theorem SimulateFujiTransformSubnet_env_scope (h : Harness) (m : Machine)
    (subnetName key : String)
    (hexists : h.SubnetConfigExists m subnetName = (true, none))
    (hname : setenvRejects h.SimulatePublicNetwork "true" = false) :
    (simulating h m).environ h.SimulatePublicNetwork = some "true" ∧
    (∃ more,
      (SimulateFujiTransformSubnet h m subnetName key).calls =
        [HelperEvent.SubnetConfigExists subnetName,
          HelperEvent.Setenv h.SimulatePublicNetwork "true",
          HelperEvent.CombinedOutput h.CLIBinary (transformArgs h subnetName key)]
          ++ more ++ [HelperEvent.Unsetenv h.SimulatePublicNetwork] ∧
      ∀ ev ∈ more, ∀ k v, ev ≠ HelperEvent.Setenv k v ∧ ev ≠ HelperEvent.Unsetenv k) ∧
    (SimulateFujiTransformSubnet h m subnetName key).after.environ h.SimulatePublicNetwork =
      none ∧
    (∀ k, k ≠ h.SimulatePublicNetwork →
      (SimulateFujiTransformSubnet h m subnetName key).after.environ k = m.environ k) ∧
    (∀ err,
      (h.CombinedOutput (simulating h m) h.CLIBinary (transformArgs h subnetName key)).1.2 =
        some err →
      (SimulateFujiTransformSubnet h m subnetName key).result? =
        some ("", some (GoError.ext err))) ∧
    ((h.CombinedOutput (simulating h m) h.CLIBinary (transformArgs h subnetName key)).1.2 =
        none →
      (SimulateFujiTransformSubnet h m subnetName key).result? =
        some ((h.CombinedOutput (simulating h m) h.CLIBinary
          (transformArgs h subnetName key)).1.1, none)) ∧
    (∃ output err,
      (SimulateFujiTransformSubnet h m subnetName key).result? = some (output, err) ∧
      ((err ≠ none ∧ output = "") ↔
        (h.CombinedOutput (simulating h m) h.CLIBinary
          (transformArgs h subnetName key)).1.2 ≠ none) ∧
      (err ≠ none ↔
        (h.CombinedOutput (simulating h m) h.CLIBinary
          (transformArgs h subnetName key)).1.2 ≠ none)) := by
  unfold SimulateFujiTransformSubnet
  rw [hexists]
  simp only [osSetenv_accepted m _ _ hname, osUnsetenv]
  unfold simulating transformArgs
  cases hc : (h.CombinedOutput
      { m with environ := fun k => if k = h.SimulatePublicNetwork then some "true" else m.environ k }
      h.CLIBinary
      [h.SubnetCmd, h.ElasticTransformCmd, "--fuji", "--key", key, "--tokenName", "BLIZZARD",
        "--tokenSymbol", "BRRR", "--denomination", "0", "--default", "--force", subnetName]).1.2 with
  | none =>
    simp only [Run.calls, Run.after, Run.result?]
    refine ⟨by simp, ⟨[], by simp, by simp⟩, by simp, ?_, by simp, by simp, ?_⟩
    · intro k hk
      simp [hk]
    · exact ⟨_, _, rfl, by simp, by simp⟩
  | some err =>
    simp only [Run.calls, Run.after, Run.result?]
    refine ⟨by simp,
      ⟨[HelperEvent.PrintCommand _ _, HelperEvent.PrintOutput _, HelperEvent.PrintStdErr _],
        rfl, ?_⟩, by simp, ?_, by simp, by simp, ?_⟩
    · intro ev hev k v
      simp only [List.mem_cons, List.mem_singleton, List.not_mem_nil, or_false] at hev
      rcases hev with rfl | rfl | rfl <;> simp
    · intro k hk
      simp [hk]
    · exact ⟨_, _, rfl, by simp, by simp⟩

/-- C19 on the demo machine: the command succeeds for `sub1` and fails for
`broken`; the variable is unset afterwards in both runs. -/
theorem SimulateFujiTransformSubnet_env_scope_witness :
    demoHarness.SubnetConfigExists demoMachine "sub1" = (true, none) ∧
    setenvRejects demoHarness.SimulatePublicNetwork "true" = false ∧
    (SimulateFujiTransformSubnet demoHarness demoMachine "sub1" "ewoq").result? =
      some ("done", none) ∧
    (SimulateFujiTransformSubnet demoHarness demoMachine "broken" "ewoq").result? =
      some ("", some (GoError.ext { text := "exit status 1", notExist := false })) ∧
    (SimulateFujiTransformSubnet demoHarness demoMachine "sub1" "ewoq").after.environ
      demoHarness.SimulatePublicNetwork = none ∧
    (SimulateFujiTransformSubnet demoHarness demoMachine "broken" "ewoq").after.environ
      demoHarness.SimulatePublicNetwork = none :=
  ⟨rfl, by decide, by decide, by decide,
    (SimulateFujiTransformSubnet_env_scope demoHarness demoMachine "sub1" "ewoq" rfl
      (by decide)).2.2.1,
    (SimulateFujiTransformSubnet_env_scope demoHarness demoMachine "broken" "ewoq" rfl
      (by decide)).2.2.1⟩

/-! ## Theorems: the specified subnet lifecycle -/

/-- C11: for a subnet `n` that exists, a delete that succeeds leaves neither
the Sidecar nor the ConfigBundle (nor the elastic side file) of `n`; a forced
delete always succeeds, so after `Delete(n, force=true)` both are absent.  The
other subnets are untouched. -/
theorem Delete_completeness (confirm : String → Except ExtError Bool) (st : SubnetStore)
    (n : String) (force : Bool) (hexists : SidecarStore.Exists st n = true) :
    ((SubnetConfigManager.Delete confirm st n force).1 = DeleteOutcome.deleted →
      SidecarStore.Exists (SubnetConfigManager.Delete confirm st n force).2 n = false ∧
      ConfigBundle.Exists (SubnetConfigManager.Delete confirm st n force).2 n = false ∧
      (SubnetConfigManager.Delete confirm st n force).2.elasticSideFile n = false) ∧
    (SubnetConfigManager.Delete confirm st n true).1 = DeleteOutcome.deleted ∧
    SidecarStore.Exists (SubnetConfigManager.Delete confirm st n true).2 n = false ∧
    ConfigBundle.Exists (SubnetConfigManager.Delete confirm st n true).2 n = false ∧
    (∀ other, other ≠ n →
      (SubnetConfigManager.Delete confirm st n force).2.sidecars other = st.sidecars other ∧
      (SubnetConfigManager.Delete confirm st n force).2.bundles other = st.bundles other) := by
  unfold SubnetConfigManager.Delete
  simp only [hexists, Bool.true_eq_false, if_false, if_true]
  refine ⟨?_, trivial, by simp [SidecarStore.Exists, SubnetStore.without],
    by simp [ConfigBundle.Exists, SubnetStore.without], ?_⟩
  · cases force
    · cases hc : confirm n with
      | error e => simp
      | ok b =>
        cases b <;> simp [SidecarStore.Exists, ConfigBundle.Exists, SubnetStore.without]
    · simp [SidecarStore.Exists, ConfigBundle.Exists, SubnetStore.without]
  · intro other ho
    cases force
    · cases hc : confirm n with
      | error e => simp
      | ok b => cases b <;> simp [SubnetStore.without, ho]
    · simp [SubnetStore.without, ho]

/-- C11 on the demo store: `sub1` exists and is gone after a forced delete,
although the confirmation would have been declined. -/
theorem Delete_completeness_witness :
    SidecarStore.Exists demoStore "sub1" = true ∧
    ConfigBundle.Exists demoStore "sub1" = true ∧
    (SubnetConfigManager.Delete (fun _ => Except.ok false) demoStore "sub1" true).1 =
      DeleteOutcome.deleted ∧
    SidecarStore.Exists
      (SubnetConfigManager.Delete (fun _ => Except.ok false) demoStore "sub1" true).2 "sub1" =
      false ∧
    ConfigBundle.Exists
      (SubnetConfigManager.Delete (fun _ => Except.ok false) demoStore "sub1" true).2 "sub1" =
      false :=
  ⟨by decide, by decide,
    (Delete_completeness (fun _ => Except.ok false) demoStore "sub1" true (by decide)).2.1,
    (Delete_completeness (fun _ => Except.ok false) demoStore "sub1" true (by decide)).2.2.1,
    (Delete_completeness (fun _ => Except.ok false) demoStore "sub1" true (by decide)).2.2.2.1⟩

/-- C12: for a subnet `n` that exists and is not deployed on `net`, when the
runtime version resolves and the network join succeeds, `Deploy(n, net)`
succeeds and records the NetworkState of `(n, net)`; a second `Deploy(n, net)`,
whatever its override and whatever the collaborators would answer, fails with
`AlreadyDeployedError` and leaves the store, hence that NetworkState, unchanged. -/
theorem Deploy_twice (c1 : DeployCollaborators) (st : SubnetStore) (n : String)
    (net : NetworkTarget) (override1 : Option String) (sc : SubnetSidecar)
    (runtimeVersion : String) (ids : String × String)
    (hsc : st.sidecars n = some sc) (hundeployed : sc.networks net = none)
    (hversion : (match override1 with
      | some v => Except.ok v
      | none => c1.ResolveRuntimeVersion sc.vmVersion) = Except.ok runtimeVersion)
    (hjoin : c1.join n net runtimeVersion = Except.ok ids) :
    (DeploymentOrchestrator.Deploy c1 st n net override1).1 = Except.ok () ∧
    ((DeploymentOrchestrator.Deploy c1 st n net override1).2.sidecars n).bind
        (fun s => s.networks net) =
      some { subnetID := ids.1, chainID := ids.2, elastic := false, elasticConfig := none } ∧
    (∀ (c2 : DeployCollaborators) (override2 : Option String),
      DeploymentOrchestrator.Deploy c2
          (DeploymentOrchestrator.Deploy c1 st n net override1).2 n net override2 =
        (Except.error SpecError.AlreadyDeployedError,
          (DeploymentOrchestrator.Deploy c1 st n net override1).2)) := by
  have h1 : DeploymentOrchestrator.Deploy c1 st n net override1 =
      (Except.ok (),
        { st with
          sidecars := fun m =>
            if m = n then
              some { sc with
                networks := fun t =>
                  if t = net then
                    some { subnetID := ids.1, chainID := ids.2, elastic := false,
                           elasticConfig := none }
                  else sc.networks t }
            else st.sidecars m }) := by
    unfold DeploymentOrchestrator.Deploy SidecarStore.SetNetworkState
    simp only [hsc, hundeployed, hversion, hjoin]
    simp
  rw [h1]
  refine ⟨rfl, by simp, ?_⟩
  intro c2 override2
  unfold DeploymentOrchestrator.Deploy
  simp

/-- C12 on the demo store: `sub1` is deployed on the local network; the second
deploy is refused even with collaborators that would fail. -/
theorem Deploy_twice_witness :
    demoStore.sidecars "sub1" = some demoSidecar ∧
    (DeploymentOrchestrator.Deploy demoCollaborators demoStore "sub1"
      NetworkTarget.localNetwork none).1 = Except.ok () ∧
    DeploymentOrchestrator.Deploy failingCollaborators
        (DeploymentOrchestrator.Deploy demoCollaborators demoStore "sub1"
          NetworkTarget.localNetwork none).2 "sub1" NetworkTarget.localNetwork none =
      (Except.error SpecError.AlreadyDeployedError,
        (DeploymentOrchestrator.Deploy demoCollaborators demoStore "sub1"
          NetworkTarget.localNetwork none).2) :=
  ⟨rfl,
    (Deploy_twice demoCollaborators demoStore "sub1" NetworkTarget.localNetwork none
      demoSidecar "v1.10.5" ("subnet-1", "chain-1") rfl rfl rfl rfl).1,
    (Deploy_twice demoCollaborators demoStore "sub1" NetworkTarget.localNetwork none
      demoSidecar "v1.10.5" ("subnet-1", "chain-1") rfl rfl rfl rfl).2.2
      failingCollaborators none⟩

/-- C13: on a proposed artifact with threshold `k >= 1`, after any sequence of
`Sign` calls the collected signatures are exactly those of the distinct
authorized signers, and the status is ready-to-commit if and only if there are
at least `k` of them: never with fewer, always with `k`.  A signer outside
`requiredAuthorizers` is rejected with `UnauthorizedSignerError`, a repeated
one with `AlreadySignedError`, and neither counts; an accepted signature adds
one, and makes the artifact ready exactly when it reaches `k`. -/
theorem Sign_threshold (a : TransactionArtifact) (calls : List (String × Bytes))
    (hfresh : a.collectedSignatures = []) (hstatus : a.status = ArtifactStatus.proposed)
    (hk : 1 ≤ a.threshold) :
    (signAll a calls).collectedSignatures.length =
      distinctAuthorized a.requiredAuthorizers calls ∧
    ((signAll a calls).status = ArtifactStatus.readyToCommit ↔
      a.threshold ≤ (distinctAuthorized a.requiredAuthorizers calls : Int)) ∧
    (∀ s sig, s ∉ a.requiredAuthorizers →
      TransactionWorkflow.Sign (signAll a calls) s sig =
        Except.error SpecError.UnauthorizedSignerError) ∧
    (∀ s sig, s ∈ a.requiredAuthorizers → s ∈ (signAll a calls).signers →
      TransactionWorkflow.Sign (signAll a calls) s sig =
        Except.error SpecError.AlreadySignedError) ∧
    (∀ s sig, s ∈ a.requiredAuthorizers → s ∉ (signAll a calls).signers →
      ∃ b, TransactionWorkflow.Sign (signAll a calls) s sig = Except.ok b ∧
        b.collectedSignatures.length = distinctAuthorized a.requiredAuthorizers calls + 1 ∧
        (b.status = ArtifactStatus.readyToCommit ↔
          a.threshold ≤ (distinctAuthorized a.requiredAuthorizers calls : Int) + 1)) := by
  obtain ⟨hinv, hreq, hthr, hlen⟩ := signAll_count a calls hfresh hstatus
  refine ⟨hlen, ?_, ?_, ?_, ?_⟩
  · obtain ⟨-, -, hempty, hsome⟩ := hinv
    by_cases hnil : (signAll a calls).collectedSignatures = []
    · have h0 : distinctAuthorized a.requiredAuthorizers calls = 0 := by
        rw [← hlen, hnil]
        rfl
      rw [hempty hnil, h0]
      constructor
      · intro h
        cases h
      · intro h
        exfalso
        have : a.threshold ≤ 0 := by simpa using h
        omega
    · rw [hsome hnil, hthr, hlen]
      by_cases hle : a.threshold ≤ (distinctAuthorized a.requiredAuthorizers calls : Int)
      · simp [hle]
      · simp [hle]
  · intro s sig hs
    unfold TransactionWorkflow.Sign
    simp [hreq, hs]
  · intro s sig hs hsigned
    unfold TransactionWorkflow.Sign
    simp [hreq, hs, hsigned]
  · intro s sig hs hnew
    refine ⟨_, Sign_accepted (signAll a calls) s sig (hreq ▸ hs) hnew, ?_, ?_⟩
    · simp [hlen]
    · simp only [List.length_append, List.length_singleton, hlen, hthr]
      by_cases hle : a.threshold ≤ (distinctAuthorized a.requiredAuthorizers calls : Int) + 1
      · simp [hle]
      · simp [hle]

/-- C13 on an artifact with threshold 2: a stranger and a repeated signer do
not count, the second authorized signer makes it ready to commit. -/
theorem Sign_threshold_witness :
    (signAll demoArtifact [("P-alice", [1]), ("P-mallory", [9]), ("P-alice", [1])]).status =
      ArtifactStatus.partiallySigned ∧
    (signAll demoArtifact
      [("P-alice", [1]), ("P-mallory", [9]), ("P-alice", [1]), ("P-bob", [2])]).status =
      ArtifactStatus.readyToCommit ∧
    distinctAuthorized demoArtifact.requiredAuthorizers
      [("P-alice", [1]), ("P-mallory", [9]), ("P-alice", [1]), ("P-bob", [2])] = 2 ∧
    ((signAll demoArtifact
        [("P-alice", [1]), ("P-mallory", [9]), ("P-alice", [1]), ("P-bob", [2])]).status =
        ArtifactStatus.readyToCommit ↔
      demoArtifact.threshold ≤
        (distinctAuthorized demoArtifact.requiredAuthorizers
          [("P-alice", [1]), ("P-mallory", [9]), ("P-alice", [1]), ("P-bob", [2])] : Int)) :=
  ⟨by decide, by decide, by decide,
    (Sign_threshold demoArtifact
      [("P-alice", [1]), ("P-mallory", [9]), ("P-alice", [1]), ("P-bob", [2])]
      rfl rfl (by decide)).2.1⟩

end AvalancheCLI
